import Mathlib

/-!
Verification development for the mbox-to-database conversion pipeline
(`src/main.rs`).  The program's strings are modelled as lists of
characters (`Str`); all inputs of interest are ASCII, where Rust's byte
indices and our character indices coincide.  External collaborators (the
MIME parser `mailparse::parse_mail`, the SQLite sink) are modelled as
parameters / list sinks; the date-normalization engine, the retention
filter, the boundary scanner and the driver loop are embedded directly
from the source.  The behaviour of the `chrono` date library
(`DateTime::parse_from_rfc2822`, `NaiveDateTime::parse_from_str`,
formatting with `%Y-%m-%d %H:%M:%S`) is embedded from chrono 0.4's
parser: optional short weekday requiring a following comma, 1-2 digit
day, short month name, year with the 2-digit pivot (0-49 -> 2000+,
50-99 -> 1900+, 3 digits -> 1900+, otherwise as written, any number of
digits), exactly-2-digit hour and minute, optional exactly-2-digit
second, numeric or named zone offset, full-string consumption, and
consistency checks at resolution (day in month, hour < 24, minute < 60,
second <= 60 for leap seconds, weekday agreeing with the date, offset
magnitude below one day).  Formatting prints the wall-clock fields of
the parsed value; `%Y` zero-pads to 4 digits for years in [0, 10000)
and otherwise prints an explicit sign followed by the digits.
-/

namespace Mbox

/-- Rust `String`/`&str` contents, modelled as a list of characters. -/
abbrev Str := List Char

/-- ASCII whitespace test (`char::is_whitespace` restricted to the ASCII
whitespace characters that occur in the data handled here). -/
def isWsB (c : Char) : Bool := c == ' ' || c == '\t' || c == '\n' || c == '\r'

/-- ASCII lower-casing of one character (`str::to_lowercase` on ASCII). -/
def lowAscii (c : Char) : Char :=
  if 'A' ≤ c ∧ c ≤ 'Z' then Char.ofNat (c.toNat + 32) else c

/-- `str::to_lowercase`, ASCII fragment. -/
def lowerStr (s : Str) : Str := s.map lowAscii

/-- `str::trim_start`. -/
def trimStartS (s : Str) : Str := s.dropWhile (fun c => isWsB c)

/-- `str::trim_end`. -/
def trimEndS (s : Str) : Str := (s.reverse.dropWhile (fun c => isWsB c)).reverse

/-- `str::trim`. -/
def trimS (s : Str) : Str := trimEndS (trimStartS s)

/-- Boolean list-prefix test (first argument is the pattern). -/
def prefixOfB : Str → Str → Bool
  | [], _ => true
  | _ :: _, [] => false
  | a :: as, b :: bs => a == b && prefixOfB as bs

/-- `str::starts_with`. -/
def startsWithS (s pre : Str) : Bool := prefixOfB pre s

/-- Substring test (`str::contains` with a string pattern). -/
def containsSub : Str → Str → Bool
  | [], pat => prefixOfB pat []
  | s@(_ :: t), pat => prefixOfB pat s || containsSub t pat

/-- Scanning core of `str::replace`, structurally recursive: a positive
`skip` count drops characters already consumed by an emitted match. -/
def strReplaceGo (pat rep : Str) : Str → Nat → Str
  | [], _ => []
  | _ :: rest, k + 1 => strReplaceGo pat rep rest k
  | c :: rest, 0 =>
    if pat ≠ [] ∧ prefixOfB pat (c :: rest) then
      rep ++ strReplaceGo pat rep rest (pat.length - 1)
    else
      c :: strReplaceGo pat rep rest 0

/-- `str::replace`: replace every non-overlapping occurrence of `pat`
(left to right) by `rep`.  An empty pattern is returned unchanged (the
program only ever uses non-empty patterns). -/
def strReplace (s pat rep : Str) : Str := strReplaceGo pat rep s 0

/-- `str::replacen` with count 1: replace the first occurrence only. -/
def strReplaceOnce (s pat rep : Str) : Str :=
  match s with
  | [] => []
  | c :: rest =>
    if pat ≠ [] ∧ prefixOfB pat (c :: rest) then
      rep ++ (c :: rest).drop pat.length
    else
      c :: strReplaceOnce rest pat rep

/-- `str::rfind` for the predicate `c == '+' || c == '-'`:
index (character index; byte index on ASCII data) of the last sign. -/
def rfindSignIdx (s : Str) : Option Nat :=
  match s.reverse.findIdx? (fun c => c == '+' || c == '-') with
  | none => none
  | some i => some (s.length - 1 - i)

/-- Scanning core of `str::split_whitespace` with the token collected
so far (in reverse). -/
def splitWsGo : Str → Str → List Str
  | [], cur => if cur.isEmpty then [] else [cur.reverse]
  | c :: rest, cur =>
    if isWsB c then
      (if cur.isEmpty then splitWsGo rest [] else cur.reverse :: splitWsGo rest [])
    else splitWsGo rest (c :: cur)

/-- `str::split_whitespace`: maximal runs of non-whitespace characters,
in order. -/
def splitWs (s : Str) : List Str := splitWsGo s []

/-- Numeric value of a list of decimal digit characters. -/
def natOfDigits (ds : Str) : Nat :=
  ds.foldl (fun acc c => acc * 10 + (c.toNat - 48)) 0

/-- Decimal digits of `n`, most significant first. -/
def natDigits (n : Nat) : Str := Nat.toDigits 10 n

/-! ### Date normalization engine, stage A: textual repairs
Each `fix*` definition embeds one repair of `parse_email_date`
(`src/main.rs`, lines 208-292), in source order. -/

/-- Repair 2: strip garbage after a supposed 5-character timezone field
(`if let Some(tz_pos) = cleaned.rfind(|c| c == '+' || c == '-') ...`). -/
def fixTzGarbage (s : Str) : Str :=
  match rfindSignIdx s with
  | none => s
  | some p =>
    if 0 < p ∧ p + 5 < s.length then
      if (s.drop (p + 5)).any (fun c => !isWsB c) then s.take (p + 5) else s
    else s

/-- Repair 3: drop a parenthesized zone name and everything after the
opening paren (`cleaned.split('(').next() ... .trim()`). -/
def fixParen (s : Str) : Str :=
  if s.contains '(' then trimS (s.takeWhile (fun c => c ≠ '(')) else s

/-- One attempted match of the regex `GMT([+-])(\d{2}):?(\d{2})` at the
head of `s`; on success returns the substituted text `$1$2$3` and the
remainder after the match. -/
def gmtMatchAt (s : Str) : Option (Str × Str) :=
  match s with
  | g :: m :: t :: sg :: a :: b :: rest =>
    if g == 'G' && m == 'M' && t == 'T' && (sg == '+' || sg == '-')
        && a.isDigit && b.isDigit then
      match rest with
      | ':' :: c :: d :: r2 =>
        if c.isDigit && d.isDigit then some ([sg, a, b, c, d], r2) else none
      | c :: d :: r2 =>
        if c.isDigit && d.isDigit then some ([sg, a, b, c, d], r2) else none
      | _ => none
    else none
  | _ => none

/-- Scanning core of `replace_all` for the GMT pattern, structurally
recursive with a skip count for consumed characters. -/
def gmtGo : Str → Nat → Str
  | [], _ => []
  | _ :: rest, k + 1 => gmtGo rest k
  | c :: rest, 0 =>
    match gmtMatchAt (c :: rest) with
    | some (rep, rem) => rep ++ gmtGo rest ((c :: rest).length - rem.length - 1)
    | none => c :: gmtGo rest 0

/-- Repair 4: `GMT_PATTERN.replace_all(&cleaned, "$1$2$3")` for
`GMT([+-])(\d{2}):?(\d{2})`. -/
def gmtReplaceAll (s : Str) : Str := gmtGo s 0

/-- Repair 5: the fixed chain of literal zone-name substitutions
(`src/main.rs` lines 238-255), in source order. -/
def fixZoneNames (s : Str) : Str :=
  let s := strReplace s ("Eastern Daylight Time".data) ("-0400".data)
  let s := strReplace s ("Eastern Standard Time".data) ("-0500".data)
  let s := strReplace s ("Pacific Daylight Time".data) ("-0700".data)
  let s := strReplace s ("Pacific Standard Time".data) ("-0800".data)
  let s := strReplace s ("Central Daylight Time".data) ("-0500".data)
  let s := strReplace s ("Central Standard Time".data) ("-0600".data)
  let s := strReplace s ("Mountain Daylight Time".data) ("-0600".data)
  let s := strReplace s ("Mountain Standard Time".data) ("-0700".data)
  let s := strReplace s (" UTC".data) (" +0000".data)
  let s := strReplace s (" GMT".data) (" +0000".data)
  let s := strReplace s (" EDT".data) (" -0400".data)
  let s := strReplace s (" EST".data) (" -0500".data)
  let s := strReplace s (" CDT".data) (" -0500".data)
  let s := strReplace s (" CST".data) (" -0600".data)
  let s := strReplace s (" PDT".data) (" -0700".data)
  let s := strReplace s (" PST".data) (" -0800".data)
  let s := strReplace s (" CET".data) (" +0100".data)
  s

/-- One attempted match of `([+-])(\d{3})\s*$` at the head of `s`; the
replacement `${1}0$2` also swallows the trailing whitespace matched by
`\s*$`. -/
def tz3MatchAt (s : Str) : Option Str :=
  match s with
  | sg :: a :: b :: c :: rest =>
    if (sg == '+' || sg == '-') && a.isDigit && b.isDigit && c.isDigit
        && rest.all isWsB then
      some [sg, '0', a, b, c]
    else none
  | _ => none

/-- Repair 6: `TZ_3DIGIT.replace_all(&cleaned, "${1}0$2")` for
`([+-])(\d{3})\s*$` (a match necessarily extends to the end of the
string, so at most one replacement happens). -/
def tz3ReplaceAll (s : Str) : Str :=
  match s with
  | [] => []
  | c :: rest =>
    match tz3MatchAt (c :: rest) with
    | some rep => rep
    | none => c :: tz3ReplaceAll rest

/-- Regex word character (`\w`, ASCII fragment). -/
def wordChar (c : Char) : Bool := c.isAlphanum || c == '_'

/-- Word boundary `\b` after the end of a match whose last character is
a word character: the next character (if any) must not be one. -/
def boundaryNext (rest : Str) : Bool :=
  match rest with
  | [] => true
  | x :: _ => !wordChar x

/-- One attempted match of `\b(\d):(\d{2}):(\d{2})\b` at the head of
`s`, given whether the previous character was a word character. -/
def sdtMatchAt (prevWord : Bool) (s : Str) : Option (Str × Str) :=
  match s with
  | d1 :: c1 :: m1 :: m2 :: c2 :: s1 :: s2 :: rest =>
    if !prevWord && d1.isDigit && c1 == ':' && m1.isDigit && m2.isDigit
        && c2 == ':' && s1.isDigit && s2.isDigit && boundaryNext rest then
      some (['0', d1, ':', m1, m2, ':', s1, s2], rest)
    else none
  | _ => none

/-- Repair 7: `SINGLE_DIGIT_TIME.replace_all(&cleaned, "0$1:$2:$3")`
for `\b(\d):(\d{2}):(\d{2})\b` (scanning carries the previous-character
word/non-word state; the last character of a match is a digit, hence a
word character). -/
def sdtGo : Bool → Str → Nat → Str
  | _, [], _ => []
  | _, _ :: rest, k + 1 => sdtGo true rest k
  | prevWord, c :: rest, 0 =>
    match sdtMatchAt prevWord (c :: rest) with
    | some (rep, rem) => rep ++ sdtGo true rest ((c :: rest).length - rem.length - 1)
    | none => c :: sdtGo (wordChar c) rest 0

/-- The full scan, started in start-of-string boundary state. -/
def sdtReplaceAll (s : Str) : Str := sdtGo false s 0

/-- One attempted match of `:(\d)\b` at the head of `s`. -/
def msMatchAt (s : Str) : Option (Str × Str) :=
  match s with
  | c1 :: d :: rest =>
    if c1 == ':' && d.isDigit && boundaryNext rest then
      some ([':', '0', d], rest)
    else none
  | _ => none

/-- Repair 8: `SINGLE_DIGIT_MIN_SEC.replace_all(&cleaned, ":0$1")` for
`:(\d)\b`. -/
def msGo : Str → Nat → Str
  | [], _ => []
  | _ :: rest, k + 1 => msGo rest k
  | c :: rest, 0 =>
    match msMatchAt (c :: rest) with
    | some (rep, rem) => rep ++ msGo rest ((c :: rest).length - rem.length - 1)
    | none => c :: msGo rest 0

/-- The full scan. -/
def msReplaceAll (s : Str) : Str := msGo s 0

/-- Repair 9: the AM/PM collapsing chain (`src/main.rs` line 267). -/
def fixAmPm (s : Str) : Str :=
  let s := strReplace s ("PM+".data) (" +".data)
  let s := strReplace s ("PM-".data) (" -".data)
  let s := strReplace s ("AM+".data) (" +".data)
  let s := strReplace s ("AM-".data) (" -".data)
  let s := strReplace s (" PM ".data) (" ".data)
  let s := strReplace s (" AM ".data) (" ".data)
  s

/-- Repair 10: full weekday names to 3-letter abbreviations. -/
def fixDayNames (s : Str) : Str :=
  let s := strReplace s ("Monday".data) ("Mon".data)
  let s := strReplace s ("Tuesday".data) ("Tue".data)
  let s := strReplace s ("Wednesday".data) ("Wed".data)
  let s := strReplace s ("Thursday".data) ("Thu".data)
  let s := strReplace s ("Thurs,".data) ("Thu,".data)
  let s := strReplace s ("Friday".data) ("Fri".data)
  let s := strReplace s ("Saturday".data) ("Sat".data)
  let s := strReplace s ("Sunday".data) ("Sun".data)
  s

/-- Repair 11: full month names to 3-letter abbreviations. -/
def fixMonthNames (s : Str) : Str :=
  let s := strReplace s ("January".data) ("Jan".data)
  let s := strReplace s ("February".data) ("Feb".data)
  let s := strReplace s ("March".data) ("Mar".data)
  let s := strReplace s ("April".data) ("Apr".data)
  let s := strReplace s ("June".data) ("Jun".data)
  let s := strReplace s ("July".data) ("Jul".data)
  let s := strReplace s ("August".data) ("Aug".data)
  let s := strReplace s ("September".data) ("Sep".data)
  let s := strReplace s ("October".data) ("Oct".data)
  let s := strReplace s ("November".data) ("Nov".data)
  let s := strReplace s ("December".data) ("Dec".data)
  s

/-- Stage A of `parse_email_date`: the textual repairs applied in source
order to the trimmed input. -/
def stageA (s0 : Str) : Str :=
  let s := strReplace s0 ("--".data) ("-".data)
  let s := fixTzGarbage s
  let s := fixParen s
  let s := gmtReplaceAll s
  let s := fixZoneNames s
  let s := tz3ReplaceAll s
  let s := sdtReplaceAll s
  let s := msReplaceAll s
  let s := fixAmPm s
  let s := fixDayNames s
  let s := fixMonthNames s
  s

/-! ### Date normalization engine, stage B: the chrono parsers -/

/-- Wall-clock fields of a successfully parsed date-time, as they are
printed by `format("%Y-%m-%d %H:%M:%S")` (for an offset-carrying value
chrono formats the local, offset-adjusted fields, which are exactly the
fields as written in the input). -/
structure DT where
  year : Int
  month : Nat
  day : Nat
  hour : Nat
  minute : Nat
  second : Nat
deriving DecidableEq

/-- chrono `scan::number`: consume at least `mn` and at most `mx`
decimal digits (`none` for `mx` means unbounded, as in the RFC 2822
year field).  Returns the value, the number of digits, and the rest. -/
def scanNumber (s : Str) (mn : Nat) (mx : Option Nat) : Option (Nat × Nat × Str) :=
  let ds0 := s.takeWhile Char.isDigit
  let ds := match mx with
    | some m => ds0.take m
    | none => ds0
  if ds.length < mn then none
  else some (natOfDigits ds, ds.length, s.drop ds.length)

/-- chrono `scan::space`: require at least one whitespace character and
consume the whole run. -/
def scanSpace (s : Str) : Option Str :=
  match s with
  | [] => none
  | c :: rest => if isWsB c then some (trimStartS rest) else none

/-- chrono `scan::short_weekday`: case-insensitive 3-letter weekday
name; numbering follows chrono's `Weekday` (Mon = 0 .. Sun = 6). -/
def scanShortWeekday (s : Str) : Option (Nat × Str) :=
  match s with
  | c1 :: c2 :: c3 :: rest =>
    let w := [lowAscii c1, lowAscii c2, lowAscii c3]
    if w == "mon".data then some (0, rest)
    else if w == "tue".data then some (1, rest)
    else if w == "wed".data then some (2, rest)
    else if w == "thu".data then some (3, rest)
    else if w == "fri".data then some (4, rest)
    else if w == "sat".data then some (5, rest)
    else if w == "sun".data then some (6, rest)
    else none
  | _ => none

/-- chrono `scan::short_month0` (shifted to 1-based months):
case-insensitive 3-letter month name. -/
def scanShortMonth (s : Str) : Option (Nat × Str) :=
  match s with
  | c1 :: c2 :: c3 :: rest =>
    let w := [lowAscii c1, lowAscii c2, lowAscii c3]
    if w == "jan".data then some (1, rest)
    else if w == "feb".data then some (2, rest)
    else if w == "mar".data then some (3, rest)
    else if w == "apr".data then some (4, rest)
    else if w == "may".data then some (5, rest)
    else if w == "jun".data then some (6, rest)
    else if w == "jul".data then some (7, rest)
    else if w == "aug".data then some (8, rest)
    else if w == "sep".data then some (9, rest)
    else if w == "oct".data then some (10, rest)
    else if w == "nov".data then some (11, rest)
    else if w == "dec".data then some (12, rest)
    else none
  | _ => none

/-- chrono `scan::timezone_offset_2822`: a run of ASCII letters is a
zone name (known obsolete names map to fixed offsets, unknown names to
an unknown offset, which makes the overall RFC 2822 parse fail at
resolution); otherwise a sign followed by exactly `HHMM`, where chrono
rejects a minutes field of 60 or more (`OUT_OF_RANGE`). -/
def scanTz2822 (s : Str) : Option (Option Int × Str) :=
  let name := s.takeWhile (fun c => c.isAlpha)
  if name.length > 0 then
    let rest := s.drop name.length
    let low := lowerStr name
    if low == "gmt".data || low == "ut".data then some (some 0, rest)
    else if low == "edt".data then some (some (-4 * 3600), rest)
    else if low == "est".data || low == "cdt".data then some (some (-5 * 3600), rest)
    else if low == "cst".data || low == "mdt".data then some (some (-6 * 3600), rest)
    else if low == "mst".data || low == "pdt".data then some (some (-7 * 3600), rest)
    else if low == "pst".data then some (some (-8 * 3600), rest)
    else some (none, rest)
  else
    match s with
    | sg :: rest =>
      if sg == '+' || sg == '-' then
        match scanNumber rest 2 (some 2) with
        | some (hh, _, r1) =>
          match scanNumber r1 2 (some 2) with
          | some (mm, _, r2) =>
            if mm ≥ 60 then none
            else
              let mag : Int := (hh : Int) * 3600 + (mm : Int) * 60
              some (some (if sg == '-' then -mag else mag), r2)
          | none => none
        | none => none
      else none
    | [] => none

/-- Sakamoto's table for the day-of-week computation. -/
def sakamotoT : List Nat := [0, 3, 2, 5, 0, 3, 5, 1, 4, 6, 2, 4]

/-- Day of week of a proleptic-Gregorian date, numbered as chrono's
`Weekday` (Mon = 0 .. Sun = 6). -/
def dayOfWeekMon0 (y : Int) (m d : Nat) : Int :=
  let y' := if m < 3 then y - 1 else y
  let sun0 := (y' + y'.fdiv 4 - y'.fdiv 100 + y'.fdiv 400
    + (sakamotoT.getD (m - 1) 0 : Int) + (d : Int)) % 7
  (sun0 + 6) % 7

/-- Proleptic-Gregorian leap-year test. -/
def isLeap (y : Int) : Bool := y % 4 == 0 && (y % 100 != 0 || y % 400 == 0)

/-- Days in a month. -/
def daysInMonth (y : Int) (m : Nat) : Nat :=
  if m == 2 then (if isLeap y then 29 else 28)
  else if m == 4 || m == 6 || m == 9 || m == 11 then 30 else 31

/-- chrono `Parsed` resolution (`to_naive_date` / `to_naive_time` plus
`to_datetime`'s offset requirement): field ranges, day-in-month, the
optional weekday consistency check, chrono's representable year range,
and (when an offset is present, i.e. for `DateTime` resolution) a valid
fixed offset.  `second ≤ 60` admits leap seconds, which chrono parses
and prints back as `60`. -/
def resolveDT (wd : Option Nat) (year : Int) (month day hour minute second : Nat)
    (offset : Option Int) : Option DT :=
  if 1 ≤ month ∧ month ≤ 12 ∧ 1 ≤ day ∧ day ≤ daysInMonth year month
      ∧ hour ≤ 23 ∧ minute ≤ 59 ∧ second ≤ 60
      ∧ -262144 ≤ year ∧ year ≤ 262143
      ∧ (∀ w ∈ wd, dayOfWeekMon0 year month day = (w : Int))
      ∧ (∀ off ∈ offset, -86400 < off ∧ off < 86400) then
    some ⟨year, month, day, hour, minute, second⟩
  else none

/-- RFC 2822 optional leading weekday: if a short weekday name is
present it must be followed by a comma. -/
def rfcAfterWeekday (s : Str) : Option (Option Nat × Str) :=
  match scanShortWeekday s with
  | some (w, rest) =>
    match rest with
    | ',' :: r2 => some (some w, r2)
    | _ => none
  | none => some (none, s)

/-- RFC 2822 year adjustment: 2-digit years 0-49 are 2000s, 2-digit
years 50-99 and 3-digit years are 1900s, longer years stand as
written. -/
def rfcYearAdjust (y ylen : Nat) : Int :=
  if ylen == 2 ∧ y ≤ 49 then (2000 + y : Int)
  else if ylen == 2 then (1900 + y : Int)
  else if ylen == 3 then (1900 + y : Int)
  else (y : Int)

/-- RFC 2822 optional seconds: if (after optional whitespace) a colon
follows the minutes, exactly two digits of seconds are required;
otherwise the scanner is left where it was and seconds default to 0. -/
def rfcOptSeconds (s : Str) : Option (Nat × Str) :=
  match trimStartS s with
  | ':' :: s2 =>
    (match scanNumber s2 2 (some 2) with
     | some (v, _, s3) => some (v, s3)
     | none => none)
  | _ => some (0, s)

/-- chrono `DateTime::parse_from_rfc2822` (the whole input must be
consumed; resolution requires a known offset). -/
def parseRfc2822 (s0 : Str) : Option DT :=
  match rfcAfterWeekday s0 with
  | none => none
  | some (wd, s1) =>
  match scanNumber (trimStartS s1) 1 (some 2) with
  | none => none
  | some (day, _, s2) =>
  match scanSpace s2 with
  | none => none
  | some s3 =>
  match scanShortMonth s3 with
  | none => none
  | some (month, s4) =>
  match scanSpace s4 with
  | none => none
  | some s5 =>
  match scanNumber s5 2 none with
  | none => none
  | some (y, ylen, s6) =>
  match scanSpace s6 with
  | none => none
  | some s7 =>
  match scanNumber s7 2 (some 2) with
  | none => none
  | some (hour, _, s8) =>
  match trimStartS s8 with
  | ':' :: s9 =>
    (match scanNumber (trimStartS s9) 2 (some 2) with
     | none => none
     | some (minute, _, s10) =>
     match rfcOptSeconds s10 with
     | none => none
     | some (second, s11) =>
     match scanSpace s11 with
     | none => none
     | some s12 =>
     match scanTz2822 s12 with
     | none => none
     | some (offOpt, s13) =>
     if s13 = [] then
       match offOpt with
       | none => none
       | some off =>
         resolveDT wd (rfcYearAdjust y ylen) month day hour minute second (some off)
     else none)
  | _ => none

/-- chrono strftime parsing of `%Y`: an explicit sign admits any number
of digits; without a sign at most 4 digits are consumed.  (Numeric
items skip leading whitespace; callers below pass the already-trimmed
string.) -/
def scanSignedYear (s : Str) : Option (Int × Str) :=
  match s with
  | '-' :: r =>
    (match scanNumber r 1 none with
     | some (v, _, r2) => some (-(v : Int), r2)
     | none => none)
  | '+' :: r =>
    (match scanNumber r 1 none with
     | some (v, _, r2) => some ((v : Int), r2)
     | none => none)
  | _ =>
    match scanNumber s 1 (some 4) with
    | some (v, _, r2) => some ((v : Int), r2)
    | none => none

/-- chrono `NaiveDateTime::parse_from_str` with format
`"%a %b %d %H:%M:%S %Y"` (the ctime layout).  `Space` items and
numeric items trim leading whitespace; literal `:` must match exactly;
the whole input must be consumed; resolution checks the weekday. -/
def parseCtimeFmt (s0 : Str) : Option DT :=
  match scanShortWeekday s0 with
  | none => none
  | some (wd, s1) =>
  match scanShortMonth (trimStartS s1) with
  | none => none
  | some (month, s2) =>
  match scanNumber (trimStartS s2) 1 (some 2) with
  | none => none
  | some (day, _, s3) =>
  match scanNumber (trimStartS s3) 1 (some 2) with
  | none => none
  | some (hour, _, s4) =>
  match s4 with
  | ':' :: s5 =>
    (match scanNumber (trimStartS s5) 1 (some 2) with
     | none => none
     | some (minute, _, s6) =>
     match s6 with
     | ':' :: s7 =>
       (match scanNumber (trimStartS s7) 1 (some 2) with
        | none => none
        | some (second, _, s8) =>
        match scanSignedYear (trimStartS s8) with
        | none => none
        | some (year, s9) =>
        if s9 = [] then
          resolveDT (some wd) year month day hour minute second none
        else none)
     | _ => none)
  | _ => none

/-- chrono parse of the `%m/%d/%Y` date part shared by the three
slash formats. -/
def parseSlashDate (s0 : Str) : Option (Int × Nat × Nat × Str) :=
  match scanNumber (trimStartS s0) 1 (some 2) with
  | none => none
  | some (month, _, s1) =>
  match s1 with
  | '/' :: s2 =>
    (match scanNumber (trimStartS s2) 1 (some 2) with
     | none => none
     | some (day, _, s3) =>
     match s3 with
     | '/' :: s4 =>
       (match scanSignedYear (trimStartS s4) with
        | none => none
        | some (year, s5) => some (year, month, day, s5))
     | _ => none)
  | _ => none

/-- chrono parse of an `%H:%M:%S` (or, for the 12-hour variant,
`%I:%M:%S`) time part: three 1-2 digit numbers with literal colons. -/
def parseColonTime (s0 : Str) : Option (Nat × Nat × Nat × Str) :=
  match scanNumber (trimStartS s0) 1 (some 2) with
  | none => none
  | some (hour, _, s1) =>
  match s1 with
  | ':' :: s2 =>
    (match scanNumber (trimStartS s2) 1 (some 2) with
     | none => none
     | some (minute, _, s3) =>
     match s3 with
     | ':' :: s4 =>
       (match scanNumber (trimStartS s4) 1 (some 2) with
        | none => none
        | some (second, _, s5) => some (hour, minute, second, s5))
     | _ => none)
  | _ => none

/-- chrono `NaiveDateTime::parse_from_str` with
`"%m/%d/%Y %I:%M:%S %p"`: 12-hour clock; `set_hour12` requires the
hour to be 1-12; `%p` matches `AM`/`PM` case-insensitively; resolution
combines them into a 24-hour value. -/
def parseSlashAmPm (s0 : Str) : Option DT :=
  match parseSlashDate s0 with
  | none => none
  | some (year, month, day, s1) =>
  match parseColonTime (trimStartS s1) with
  | none => none
  | some (hour12, minute, second, s2) =>
  if 1 ≤ hour12 ∧ hour12 ≤ 12 then
    match trimStartS s2 with
    | a :: p :: s3 =>
      (if s3 = [] then
        if lowAscii a == 'a' && lowAscii p == 'm' then
          resolveDT none year month day (hour12 % 12) minute second none
        else if lowAscii a == 'p' && lowAscii p == 'm' then
          resolveDT none year month day (hour12 % 12 + 12) minute second none
        else none
      else none)
    | _ => none
  else none

/-- chrono `NaiveDateTime::parse_from_str` with
`"%m/%d/%Y %H:%M:%S"`. -/
def parseSlash24 (s0 : Str) : Option DT :=
  match parseSlashDate s0 with
  | none => none
  | some (year, month, day, s1) =>
  match parseColonTime (trimStartS s1) with
  | none => none
  | some (hour, minute, second, s2) =>
  if s2 = [] then resolveDT none year month day hour minute second none else none

/-- chrono `NaiveDateTime::parse_from_str` with `"%m/%d/%Y"`: the
format carries no time fields, and `Parsed::to_naive_time` fails with
`NOT_ENOUGH` when the hour is absent, so this attempt never succeeds
(the program's midnight default does not exist in chrono). -/
def parseSlashDateOnly (s0 : Str) : Option DT :=
  match parseSlashDate s0 with
  | none => none
  | some (_, _, _, s1) =>
    if s1 = [] then none else none

/-- Stage B of `parse_email_date`: the cascade of parse attempts
(`src/main.rs` lines 294-346), embedded over the wall-clock fields
(formatting to the canonical string is factored out into
`formatDT`). -/
def tryMissingComma (cleaned : Str) : Option DT :=
  match splitWs cleaned with
  | [] => none
  | w :: _ =>
    if w.length == 3 && !(startsWithS cleaned (w ++ [','])) then
      parseRfc2822 (strReplaceOnce cleaned w (w ++ [',']))
    else none

/-- Stage B attempt 3: two-digit-year expansion with the 50 pivot. -/
def tryTwoDigitYear (cleaned : Str) : Option DT :=
  let parts := splitWs cleaned
  if parts.length ≥ 4 then
    match parts.get? 3 with
    | some yp =>
      if yp.length == 2 && yp.all Char.isDigit then
        let y := natOfDigits yp
        let full := if y > 50 then 1900 + y else 2000 + y
        parseRfc2822 (strReplace cleaned (' ' :: (yp ++ [' ']))
          (' ' :: (natDigits full ++ [' '])))
      else none
    | none => none
  else none

/-- Join strings with single spaces (`format!("{0} {1} {2} {3} {4}", ..)`
over the five whitespace-split tokens). -/
def joinSpace : List Str → Str
  | [] => []
  | [l] => l
  | l :: ls => l ++ ' ' :: joinSpace ls

/-- Stage B attempt 4: the ctime layout, tried when the cleaned string
has exactly five whitespace-delimited tokens. -/
def tryCtime (cleaned : Str) : Option DT :=
  let parts := splitWs cleaned
  if parts.length == 5 then parseCtimeFmt (joinSpace parts) else none

/-- Stage B attempt 5: the three slash formats, tried in order when the
cleaned string contains a `/`. -/
def trySlash (cleaned : Str) : Option DT :=
  if cleaned.contains '/' then
    match parseSlashAmPm cleaned with
    | some dt => some dt
    | none =>
      match parseSlash24 cleaned with
      | some dt => some dt
      | none => parseSlashDateOnly cleaned
  else none

/-- Stage B: first successful attempt wins. -/
def parseDateCore (cleaned : Str) : Option DT :=
  match parseRfc2822 cleaned with
  | some dt => some dt
  | none =>
  match tryMissingComma cleaned with
  | some dt => some dt
  | none =>
  match tryTwoDigitYear cleaned with
  | some dt => some dt
  | none =>
  match tryCtime cleaned with
  | some dt => some dt
  | none => trySlash cleaned

/-- Two-digit zero-padded decimal rendering (`%m`, `%d`, `%H`, `%M`,
`%S`). -/
def pad2 (n : Nat) : Str := [Nat.digitChar (n / 10 % 10), Nat.digitChar (n % 10)]

/-- chrono's `%Y`: years in `[0, 10000)` print as 4 zero-padded digits;
other years print with an explicit sign and the absolute value padded
to at least 4 digits (total width at least 5 including the sign). -/
def formatYear (y : Int) : Str :=
  if 0 ≤ y ∧ y < 10000 then
    [Nat.digitChar (y.toNat / 1000 % 10), Nat.digitChar (y.toNat / 100 % 10),
     Nat.digitChar (y.toNat / 10 % 10), Nat.digitChar (y.toNat % 10)]
  else
    let ds := natDigits y.natAbs
    (if y < 0 then '-' else '+') :: (List.replicate (4 - ds.length) '0' ++ ds)

/-- `dt.format("%Y-%m-%d %H:%M:%S").to_string()`. -/
def formatDT (f : DT) : Str :=
  formatYear f.year ++ '-' :: pad2 f.month ++ '-' :: pad2 f.day
    ++ ' ' :: pad2 f.hour ++ ':' :: pad2 f.minute ++ ':' :: pad2 f.second

/-- `parse_email_date` (`src/main.rs` lines 208-349): trim, reject
empty input, apply the stage-A repairs, run the stage-B cascade, format
the winning instant canonically. -/
def parse_email_date (date_str : Str) : Option Str :=
  let cleaned := trimS date_str
  if cleaned.isEmpty then none
  else (parseDateCore (stageA cleaned)).map formatDT

/-! ### Retention filter -/

/-- `should_skip_email` (`src/main.rs` lines 351-369). -/
def should_skip_email (labels : Str) (includeSpam includeTrash includeBoth : Bool) : Bool :=
  if includeBoth then false
  else
    let labelsLower := lowerStr labels
    let isSpam := containsSub labelsLower ("spam".data)
    let isTrash := containsSub labelsLower ("trash".data)
    if isSpam && !includeSpam && !includeBoth then true
    else if isTrash && !includeTrash && !includeBoth then true
    else false

/-! ### Header/body extractor -/

/-- The structured record built per message (`struct EmailRecord`).
The Rust field `from` is a Lean keyword, so it is named `fromAddr`
(`to` likewise), matching the database column names. -/
structure EmailRecord where
  fromAddr : Str := []
  toAddr : Str := []
  cc : Str := []
  bcc : Str := []
  subject : Str := []
  date : Str := []
  message_id : Str := []
  in_reply_to : Str := []
  references : Str := []
  content_type : Str := []
  body_plain : Str := []
  body_html : Str := []
  gmail_labels : Str := []
deriving DecidableEq

/-- `EmailRecord::default()`. -/
def emptyRecord : EmailRecord := {}

/-- Output of the MIME collaborator `mailparse::parse_mail` (spec §6):
an ordered header list preserving all occurrences (key as written,
value as decoded by the collaborator) and a body tree whose nodes are
either multipart (non-empty `subparts`) or leaves carrying an optional
decoded body (`None` models `get_body()` failing). -/
inductive ParsedMail where
  | mk (headers : List (Str × Str)) (body : Option Str) (subparts : List ParsedMail)

/-- Header list of a parsed message. -/
def ParsedMail.headers : ParsedMail → List (Str × Str)
  | .mk hs _ _ => hs

/-- One step of the header-collection loop of `extract_email_data`
(`src/main.rs` lines 93-111): lower-case the key and assign the
matching field (assignment overwrites any earlier value). -/
def applyHeader (r : EmailRecord) (h : Str × Str) : EmailRecord :=
  let name := lowerStr h.1
  let value := h.2
  if name == "from".data then { r with fromAddr := value }
  else if name == "to".data then { r with toAddr := value }
  else if name == "cc".data then { r with cc := value }
  else if name == "bcc".data then { r with bcc := value }
  else if name == "subject".data then { r with subject := value }
  else if name == "date".data then { r with date := value }
  else if name == "message-id".data then { r with message_id := value }
  else if name == "in-reply-to".data then { r with in_reply_to := value }
  else if name == "references".data then { r with references := value }
  else if name == "content-type".data then { r with content_type := value }
  else if name == "x-gmail-labels".data then { r with gmail_labels := value }
  else r

/-- The header-collection loop (`for header in &parsed.headers`). -/
def collectHeaders (hs : List (Str × Str)) (r : EmailRecord) : EmailRecord :=
  hs.foldl applyHeader r

/-- `extract_body` (`src/main.rs` lines 118-139): depth-first walk; a
leaf whose decoded body is available overwrites `body_html` when its
(first, lower-cased) content-type header contains `text/html` and
`body_plain` otherwise; a leaf whose body cannot be decoded changes
nothing; a multipart node recurses into its parts in order. -/
def extract_body (p : ParsedMail) (r : EmailRecord) : EmailRecord :=
  match p with
  | .mk hs body sub =>
    match sub with
    | [] =>
      let ct := match hs.find? (fun h => lowerStr h.1 == "content-type".data) with
        | some h => lowerStr h.2
        | none => []
      (match body with
       | some b =>
         if containsSub ct ("text/html".data) then { r with body_html := b }
         else { r with body_plain := b }
       | none => r)
    | p1 :: rest => extractBodyList (p1 :: rest) r
where
  /-- Fold of `extract_body` over the subparts, in order. -/
  extractBodyList : List ParsedMail → EmailRecord → EmailRecord
  | [], r => r
  | p :: ps, r => extractBodyList ps (extract_body p r)

/-- One line of the header-repair preprocessing in `extract_email_data`
(`src/main.rs` lines 76-88): a line that starts with a space and is not
blank is fully left-trimmed; every other line is unchanged. -/
def fixLine (l : Str) : Str :=
  if startsWithS l [' '] && !(trimStartS l).isEmpty then trimStartS l else l

/-- Split one segment per `\n` (keeping a final empty segment for a
trailing newline; `rustLines` below discards it). -/
def splitNl : Str → List Str
  | [] => [[]]
  | c :: rest =>
    if c = '\n' then [] :: splitNl rest
    else
      match splitNl rest with
      | s :: ss => (c :: s) :: ss
      | [] => [[c]]

/-- Strip one trailing carriage return. -/
def stripCrEnd (l : Str) : Str :=
  match l.reverse with
  | '\r' :: r => r.reverse
  | _ => l

/-- Rust `str::lines`: split at `\n`, strip a `\r` preceding each `\n`,
drop the empty segment after a final line terminator (a final segment
without a terminator keeps a bare trailing `\r`). -/
def rustLines (s : Str) : List Str :=
  match (splitNl s).reverse with
  | [] => []
  | last :: revInit =>
    let init := (revInit.reverse).map stripCrEnd
    if last.isEmpty then init else init ++ [last]

/-- Join with `\n` (`Vec::join("\n")`). -/
def joinNl : List Str → Str
  | [] => []
  | [l] => l
  | l :: ls => l ++ '\n' :: joinNl ls

/-- The whitespace-repair preprocessing of `extract_email_data`: map
`fixLine` over the lines and re-join with `\n` (on the valid-UTF-8 data
modelled here `String::from_utf8_lossy` is the identity). -/
def fixupEmail (raw : Str) : Str := joinNl ((rustLines raw).map fixLine)

/-- `extract_email_data` (`src/main.rs` lines 73-116), parameterized by
the MIME collaborator: repair whitespace, parse, collect headers into a
default record, then walk the body tree.  Fails exactly when the
collaborator fails. -/
def extract_email_data (parseMail : Str → Option ParsedMail) (raw : Str) :
    Option EmailRecord :=
  match parseMail (fixupEmail raw) with
  | none => none
  | some parsed => some (extract_body parsed (collectHeaders parsed.headers emptyRecord))

/-! ### Message boundary scanner and pipeline driver -/

/-- The boundary test of the driver loop: `line.starts_with("From ")`. -/
def isFromLine (l : Str) : Bool := startsWithS l ("From ".data)

/-- The accumulation discipline of `process_mbox`'s loop, separated
from per-block processing: on a boundary line with a non-empty
accumulator the accumulated block is emitted; every line is appended to
the accumulator with a trailing newline; at end of input a non-empty
accumulator is emitted. -/
def scanGo : List Str → Str → List Str
  | [], cur => if cur.isEmpty then [] else [cur]
  | l :: ls, cur =>
    if isFromLine l && !cur.isEmpty then
      cur :: scanGo ls (l ++ ['\n'])
    else
      scanGo ls (cur ++ (l ++ ['\n']))

/-- The blocks the scanner hands to the extractor, for a given list of
input lines. -/
def mboxBlocks (lines : List Str) : List Str := scanGo lines []

/-- A well-formed message in the sense of claim C6: non-empty, its
first line carries the `From ` envelope marker, and no later line
does. -/
def goodMsgB (m : List Str) : Bool :=
  match m with
  | [] => false
  | l :: rest => isFromLine l && rest.all (fun x => !isFromLine x)

/-- The block the scanner builds from a message's lines: each line with
a newline appended, concatenated. -/
def blockOf (m : List Str) : Str := (m.map (fun l => l ++ ['\n'])).flatten

/-- One stored database row: the record plus the derived
`date_parsed`. -/
structure StoredRow where
  record : EmailRecord
  date_parsed : Option Str
deriving DecidableEq

/-- Driver state: rows written to the open transaction, the converted /
skipped counters, and the number of warnings printed for blocks whose
extraction failed. -/
structure DrvState where
  stored : List StoredRow := []
  emailCount : Nat := 0
  skippedCount : Nat := 0
  warnCount : Nat := 0
deriving DecidableEq

/-- Record one warning (the driver's reaction to a failed block). -/
def bumpWarn (st : DrvState) : DrvState := { st with warnCount := st.warnCount + 1 }

/-- Per-block processing of `process_mbox` (`src/main.rs` lines
396-432 and the identical end-of-input copy): extraction failure
prints a warning and moves on; a skipped record bumps the skip counter;
otherwise the dates are derived and the row is inserted. -/
def handleBlock (parseMail : Str → Option ParsedMail)
    (includeSpam includeTrash includeBoth : Bool)
    (st : DrvState) (block : Str) : DrvState :=
  match extract_email_data parseMail block with
  | some record =>
    if should_skip_email record.gmail_labels includeSpam includeTrash includeBoth then
      { st with skippedCount := st.skippedCount + 1 }
    else
      { st with
          stored := st.stored ++ [⟨record, parse_email_date record.date⟩],
          emailCount := st.emailCount + 1 }
  | none => { st with warnCount := st.warnCount + 1 }

/-- The fold of `handleBlock` over a block sequence. -/
def processBlocks (parseMail : Str → Option ParsedMail)
    (includeSpam includeTrash includeBoth : Bool)
    (st : DrvState) (blocks : List Str) : DrvState :=
  blocks.foldl (handleBlock parseMail includeSpam includeTrash includeBoth) st

/-- The interleaved loop of `process_mbox` (`src/main.rs` lines
389-473): lines are accumulated into `cur`; a boundary line with a
non-empty accumulator triggers processing of the accumulated block; at
end of input a non-empty accumulator is processed once more. -/
def processLines (parseMail : Str → Option ParsedMail)
    (includeSpam includeTrash includeBoth : Bool) :
    List Str → Str → DrvState → DrvState
  | [], cur, st =>
    if cur.isEmpty then st
    else handleBlock parseMail includeSpam includeTrash includeBoth st cur
  | l :: ls, cur, st =>
    if isFromLine l && !cur.isEmpty then
      processLines parseMail includeSpam includeTrash includeBoth ls (l ++ ['\n'])
        (handleBlock parseMail includeSpam includeTrash includeBoth st cur)
    else
      processLines parseMail includeSpam includeTrash includeBoth ls
        (cur ++ (l ++ ['\n'])) st

/-- `process_mbox`, modulo the I/O glue: run the loop over the input
lines with an empty accumulator and fresh counters. -/
def process_mbox (parseMail : Str → Option ParsedMail)
    (includeSpam includeTrash includeBoth : Bool) (lines : List Str) : DrvState :=
  processLines parseMail includeSpam includeTrash includeBoth lines [] {}

/-! ### Predicates used to state the claims -/

/-- The canonical `YYYY-MM-DD HH:MM:SS` shape: exactly 19 characters,
decimal digits in the numeric positions and the fixed separators
between them. -/
def checkCanonical (s : Str) : Bool :=
  match s with
  | [y1, y2, y3, y4, d1, m1, m2, d2, a1, a2, sp, h1, h2, c1, i1, i2, c2, s1, s2] =>
    y1.isDigit && y2.isDigit && y3.isDigit && y4.isDigit && d1 == '-'
      && m1.isDigit && m2.isDigit && d2 == '-' && a1.isDigit && a2.isDigit
      && sp == ' ' && h1.isDigit && h2.isDigit && c1 == ':'
      && i1.isDigit && i2.isDigit && c2 == ':' && s1.isDigit && s2.isDigit
  | _ => false

/-- Field ranges every successfully resolved date-time satisfies
(exactly the checks of `resolveDT`, minus the weekday/offset parts
which do not survive into the record). -/
def validDT (f : DT) : Prop :=
  1 ≤ f.month ∧ f.month ≤ 12 ∧ 1 ≤ f.day ∧ f.day ≤ daysInMonth f.year f.month
    ∧ f.hour ≤ 23 ∧ f.minute ≤ 59 ∧ f.second ≤ 60
    ∧ -262144 ≤ f.year ∧ f.year ≤ 262143

/-- Value of the last header whose lower-cased key equals `key`
(`none` when no occurrence exists). -/
def lastVal (hs : List (Str × Str)) (key : Str) : Option Str :=
  match hs with
  | [] => none
  | h :: t =>
    match lastVal t key with
    | some v => some v
    | none => if lowerStr h.1 == key then some h.2 else none

/-! ## Helper lemmas -/

theorem applyHeader_fromAddr (r : EmailRecord) (h : Str × Str) :
    (applyHeader r h).fromAddr =
      (if lowerStr h.1 == "from".data then h.2 else r.fromAddr) := by
  dsimp only [applyHeader]
  by_cases h1 : lowerStr h.1 == "from".data
  · rw [eq_of_beq h1]; rfl
  · by_cases h2 : lowerStr h.1 == "to".data
    · rw [eq_of_beq h2]; rfl
    · by_cases h3 : lowerStr h.1 == "cc".data
      · rw [eq_of_beq h3]; rfl
      · by_cases h4 : lowerStr h.1 == "bcc".data
        · rw [eq_of_beq h4]; rfl
        · by_cases h5 : lowerStr h.1 == "subject".data
          · rw [eq_of_beq h5]; rfl
          · by_cases h6 : lowerStr h.1 == "date".data
            · rw [eq_of_beq h6]; rfl
            · by_cases h7 : lowerStr h.1 == "message-id".data
              · rw [eq_of_beq h7]; rfl
              · by_cases h8 : lowerStr h.1 == "in-reply-to".data
                · rw [eq_of_beq h8]; rfl
                · by_cases h9 : lowerStr h.1 == "references".data
                  · rw [eq_of_beq h9]; rfl
                  · by_cases h10 : lowerStr h.1 == "content-type".data
                    · rw [eq_of_beq h10]; rfl
                    · by_cases h11 : lowerStr h.1 == "x-gmail-labels".data
                      · rw [eq_of_beq h11]; rfl
                      · simp [h1, h2, h3, h4, h5, h6, h7, h8, h9, h10, h11]

theorem applyHeader_toAddr (r : EmailRecord) (h : Str × Str) :
    (applyHeader r h).toAddr =
      (if lowerStr h.1 == "to".data then h.2 else r.toAddr) := by
  dsimp only [applyHeader]
  by_cases h1 : lowerStr h.1 == "from".data
  · rw [eq_of_beq h1]; rfl
  · by_cases h2 : lowerStr h.1 == "to".data
    · rw [eq_of_beq h2]; rfl
    · by_cases h3 : lowerStr h.1 == "cc".data
      · rw [eq_of_beq h3]; rfl
      · by_cases h4 : lowerStr h.1 == "bcc".data
        · rw [eq_of_beq h4]; rfl
        · by_cases h5 : lowerStr h.1 == "subject".data
          · rw [eq_of_beq h5]; rfl
          · by_cases h6 : lowerStr h.1 == "date".data
            · rw [eq_of_beq h6]; rfl
            · by_cases h7 : lowerStr h.1 == "message-id".data
              · rw [eq_of_beq h7]; rfl
              · by_cases h8 : lowerStr h.1 == "in-reply-to".data
                · rw [eq_of_beq h8]; rfl
                · by_cases h9 : lowerStr h.1 == "references".data
                  · rw [eq_of_beq h9]; rfl
                  · by_cases h10 : lowerStr h.1 == "content-type".data
                    · rw [eq_of_beq h10]; rfl
                    · by_cases h11 : lowerStr h.1 == "x-gmail-labels".data
                      · rw [eq_of_beq h11]; rfl
                      · simp [h1, h2, h3, h4, h5, h6, h7, h8, h9, h10, h11]

theorem applyHeader_cc (r : EmailRecord) (h : Str × Str) :
    (applyHeader r h).cc =
      (if lowerStr h.1 == "cc".data then h.2 else r.cc) := by
  dsimp only [applyHeader]
  by_cases h1 : lowerStr h.1 == "from".data
  · rw [eq_of_beq h1]; rfl
  · by_cases h2 : lowerStr h.1 == "to".data
    · rw [eq_of_beq h2]; rfl
    · by_cases h3 : lowerStr h.1 == "cc".data
      · rw [eq_of_beq h3]; rfl
      · by_cases h4 : lowerStr h.1 == "bcc".data
        · rw [eq_of_beq h4]; rfl
        · by_cases h5 : lowerStr h.1 == "subject".data
          · rw [eq_of_beq h5]; rfl
          · by_cases h6 : lowerStr h.1 == "date".data
            · rw [eq_of_beq h6]; rfl
            · by_cases h7 : lowerStr h.1 == "message-id".data
              · rw [eq_of_beq h7]; rfl
              · by_cases h8 : lowerStr h.1 == "in-reply-to".data
                · rw [eq_of_beq h8]; rfl
                · by_cases h9 : lowerStr h.1 == "references".data
                  · rw [eq_of_beq h9]; rfl
                  · by_cases h10 : lowerStr h.1 == "content-type".data
                    · rw [eq_of_beq h10]; rfl
                    · by_cases h11 : lowerStr h.1 == "x-gmail-labels".data
                      · rw [eq_of_beq h11]; rfl
                      · simp [h1, h2, h3, h4, h5, h6, h7, h8, h9, h10, h11]

theorem applyHeader_bcc (r : EmailRecord) (h : Str × Str) :
    (applyHeader r h).bcc =
      (if lowerStr h.1 == "bcc".data then h.2 else r.bcc) := by
  dsimp only [applyHeader]
  by_cases h1 : lowerStr h.1 == "from".data
  · rw [eq_of_beq h1]; rfl
  · by_cases h2 : lowerStr h.1 == "to".data
    · rw [eq_of_beq h2]; rfl
    · by_cases h3 : lowerStr h.1 == "cc".data
      · rw [eq_of_beq h3]; rfl
      · by_cases h4 : lowerStr h.1 == "bcc".data
        · rw [eq_of_beq h4]; rfl
        · by_cases h5 : lowerStr h.1 == "subject".data
          · rw [eq_of_beq h5]; rfl
          · by_cases h6 : lowerStr h.1 == "date".data
            · rw [eq_of_beq h6]; rfl
            · by_cases h7 : lowerStr h.1 == "message-id".data
              · rw [eq_of_beq h7]; rfl
              · by_cases h8 : lowerStr h.1 == "in-reply-to".data
                · rw [eq_of_beq h8]; rfl
                · by_cases h9 : lowerStr h.1 == "references".data
                  · rw [eq_of_beq h9]; rfl
                  · by_cases h10 : lowerStr h.1 == "content-type".data
                    · rw [eq_of_beq h10]; rfl
                    · by_cases h11 : lowerStr h.1 == "x-gmail-labels".data
                      · rw [eq_of_beq h11]; rfl
                      · simp [h1, h2, h3, h4, h5, h6, h7, h8, h9, h10, h11]

theorem applyHeader_subject (r : EmailRecord) (h : Str × Str) :
    (applyHeader r h).subject =
      (if lowerStr h.1 == "subject".data then h.2 else r.subject) := by
  dsimp only [applyHeader]
  by_cases h1 : lowerStr h.1 == "from".data
  · rw [eq_of_beq h1]; rfl
  · by_cases h2 : lowerStr h.1 == "to".data
    · rw [eq_of_beq h2]; rfl
    · by_cases h3 : lowerStr h.1 == "cc".data
      · rw [eq_of_beq h3]; rfl
      · by_cases h4 : lowerStr h.1 == "bcc".data
        · rw [eq_of_beq h4]; rfl
        · by_cases h5 : lowerStr h.1 == "subject".data
          · rw [eq_of_beq h5]; rfl
          · by_cases h6 : lowerStr h.1 == "date".data
            · rw [eq_of_beq h6]; rfl
            · by_cases h7 : lowerStr h.1 == "message-id".data
              · rw [eq_of_beq h7]; rfl
              · by_cases h8 : lowerStr h.1 == "in-reply-to".data
                · rw [eq_of_beq h8]; rfl
                · by_cases h9 : lowerStr h.1 == "references".data
                  · rw [eq_of_beq h9]; rfl
                  · by_cases h10 : lowerStr h.1 == "content-type".data
                    · rw [eq_of_beq h10]; rfl
                    · by_cases h11 : lowerStr h.1 == "x-gmail-labels".data
                      · rw [eq_of_beq h11]; rfl
                      · simp [h1, h2, h3, h4, h5, h6, h7, h8, h9, h10, h11]

theorem applyHeader_date (r : EmailRecord) (h : Str × Str) :
    (applyHeader r h).date =
      (if lowerStr h.1 == "date".data then h.2 else r.date) := by
  dsimp only [applyHeader]
  by_cases h1 : lowerStr h.1 == "from".data
  · rw [eq_of_beq h1]; rfl
  · by_cases h2 : lowerStr h.1 == "to".data
    · rw [eq_of_beq h2]; rfl
    · by_cases h3 : lowerStr h.1 == "cc".data
      · rw [eq_of_beq h3]; rfl
      · by_cases h4 : lowerStr h.1 == "bcc".data
        · rw [eq_of_beq h4]; rfl
        · by_cases h5 : lowerStr h.1 == "subject".data
          · rw [eq_of_beq h5]; rfl
          · by_cases h6 : lowerStr h.1 == "date".data
            · rw [eq_of_beq h6]; rfl
            · by_cases h7 : lowerStr h.1 == "message-id".data
              · rw [eq_of_beq h7]; rfl
              · by_cases h8 : lowerStr h.1 == "in-reply-to".data
                · rw [eq_of_beq h8]; rfl
                · by_cases h9 : lowerStr h.1 == "references".data
                  · rw [eq_of_beq h9]; rfl
                  · by_cases h10 : lowerStr h.1 == "content-type".data
                    · rw [eq_of_beq h10]; rfl
                    · by_cases h11 : lowerStr h.1 == "x-gmail-labels".data
                      · rw [eq_of_beq h11]; rfl
                      · simp [h1, h2, h3, h4, h5, h6, h7, h8, h9, h10, h11]

theorem applyHeader_message_id (r : EmailRecord) (h : Str × Str) :
    (applyHeader r h).message_id =
      (if lowerStr h.1 == "message-id".data then h.2 else r.message_id) := by
  dsimp only [applyHeader]
  by_cases h1 : lowerStr h.1 == "from".data
  · rw [eq_of_beq h1]; rfl
  · by_cases h2 : lowerStr h.1 == "to".data
    · rw [eq_of_beq h2]; rfl
    · by_cases h3 : lowerStr h.1 == "cc".data
      · rw [eq_of_beq h3]; rfl
      · by_cases h4 : lowerStr h.1 == "bcc".data
        · rw [eq_of_beq h4]; rfl
        · by_cases h5 : lowerStr h.1 == "subject".data
          · rw [eq_of_beq h5]; rfl
          · by_cases h6 : lowerStr h.1 == "date".data
            · rw [eq_of_beq h6]; rfl
            · by_cases h7 : lowerStr h.1 == "message-id".data
              · rw [eq_of_beq h7]; rfl
              · by_cases h8 : lowerStr h.1 == "in-reply-to".data
                · rw [eq_of_beq h8]; rfl
                · by_cases h9 : lowerStr h.1 == "references".data
                  · rw [eq_of_beq h9]; rfl
                  · by_cases h10 : lowerStr h.1 == "content-type".data
                    · rw [eq_of_beq h10]; rfl
                    · by_cases h11 : lowerStr h.1 == "x-gmail-labels".data
                      · rw [eq_of_beq h11]; rfl
                      · simp [h1, h2, h3, h4, h5, h6, h7, h8, h9, h10, h11]

theorem applyHeader_in_reply_to (r : EmailRecord) (h : Str × Str) :
    (applyHeader r h).in_reply_to =
      (if lowerStr h.1 == "in-reply-to".data then h.2 else r.in_reply_to) := by
  dsimp only [applyHeader]
  by_cases h1 : lowerStr h.1 == "from".data
  · rw [eq_of_beq h1]; rfl
  · by_cases h2 : lowerStr h.1 == "to".data
    · rw [eq_of_beq h2]; rfl
    · by_cases h3 : lowerStr h.1 == "cc".data
      · rw [eq_of_beq h3]; rfl
      · by_cases h4 : lowerStr h.1 == "bcc".data
        · rw [eq_of_beq h4]; rfl
        · by_cases h5 : lowerStr h.1 == "subject".data
          · rw [eq_of_beq h5]; rfl
          · by_cases h6 : lowerStr h.1 == "date".data
            · rw [eq_of_beq h6]; rfl
            · by_cases h7 : lowerStr h.1 == "message-id".data
              · rw [eq_of_beq h7]; rfl
              · by_cases h8 : lowerStr h.1 == "in-reply-to".data
                · rw [eq_of_beq h8]; rfl
                · by_cases h9 : lowerStr h.1 == "references".data
                  · rw [eq_of_beq h9]; rfl
                  · by_cases h10 : lowerStr h.1 == "content-type".data
                    · rw [eq_of_beq h10]; rfl
                    · by_cases h11 : lowerStr h.1 == "x-gmail-labels".data
                      · rw [eq_of_beq h11]; rfl
                      · simp [h1, h2, h3, h4, h5, h6, h7, h8, h9, h10, h11]

theorem applyHeader_references (r : EmailRecord) (h : Str × Str) :
    (applyHeader r h).references =
      (if lowerStr h.1 == "references".data then h.2 else r.references) := by
  dsimp only [applyHeader]
  by_cases h1 : lowerStr h.1 == "from".data
  · rw [eq_of_beq h1]; rfl
  · by_cases h2 : lowerStr h.1 == "to".data
    · rw [eq_of_beq h2]; rfl
    · by_cases h3 : lowerStr h.1 == "cc".data
      · rw [eq_of_beq h3]; rfl
      · by_cases h4 : lowerStr h.1 == "bcc".data
        · rw [eq_of_beq h4]; rfl
        · by_cases h5 : lowerStr h.1 == "subject".data
          · rw [eq_of_beq h5]; rfl
          · by_cases h6 : lowerStr h.1 == "date".data
            · rw [eq_of_beq h6]; rfl
            · by_cases h7 : lowerStr h.1 == "message-id".data
              · rw [eq_of_beq h7]; rfl
              · by_cases h8 : lowerStr h.1 == "in-reply-to".data
                · rw [eq_of_beq h8]; rfl
                · by_cases h9 : lowerStr h.1 == "references".data
                  · rw [eq_of_beq h9]; rfl
                  · by_cases h10 : lowerStr h.1 == "content-type".data
                    · rw [eq_of_beq h10]; rfl
                    · by_cases h11 : lowerStr h.1 == "x-gmail-labels".data
                      · rw [eq_of_beq h11]; rfl
                      · simp [h1, h2, h3, h4, h5, h6, h7, h8, h9, h10, h11]

theorem applyHeader_content_type (r : EmailRecord) (h : Str × Str) :
    (applyHeader r h).content_type =
      (if lowerStr h.1 == "content-type".data then h.2 else r.content_type) := by
  dsimp only [applyHeader]
  by_cases h1 : lowerStr h.1 == "from".data
  · rw [eq_of_beq h1]; rfl
  · by_cases h2 : lowerStr h.1 == "to".data
    · rw [eq_of_beq h2]; rfl
    · by_cases h3 : lowerStr h.1 == "cc".data
      · rw [eq_of_beq h3]; rfl
      · by_cases h4 : lowerStr h.1 == "bcc".data
        · rw [eq_of_beq h4]; rfl
        · by_cases h5 : lowerStr h.1 == "subject".data
          · rw [eq_of_beq h5]; rfl
          · by_cases h6 : lowerStr h.1 == "date".data
            · rw [eq_of_beq h6]; rfl
            · by_cases h7 : lowerStr h.1 == "message-id".data
              · rw [eq_of_beq h7]; rfl
              · by_cases h8 : lowerStr h.1 == "in-reply-to".data
                · rw [eq_of_beq h8]; rfl
                · by_cases h9 : lowerStr h.1 == "references".data
                  · rw [eq_of_beq h9]; rfl
                  · by_cases h10 : lowerStr h.1 == "content-type".data
                    · rw [eq_of_beq h10]; rfl
                    · by_cases h11 : lowerStr h.1 == "x-gmail-labels".data
                      · rw [eq_of_beq h11]; rfl
                      · simp [h1, h2, h3, h4, h5, h6, h7, h8, h9, h10, h11]

theorem applyHeader_gmail_labels (r : EmailRecord) (h : Str × Str) :
    (applyHeader r h).gmail_labels =
      (if lowerStr h.1 == "x-gmail-labels".data then h.2 else r.gmail_labels) := by
  dsimp only [applyHeader]
  by_cases h1 : lowerStr h.1 == "from".data
  · rw [eq_of_beq h1]; rfl
  · by_cases h2 : lowerStr h.1 == "to".data
    · rw [eq_of_beq h2]; rfl
    · by_cases h3 : lowerStr h.1 == "cc".data
      · rw [eq_of_beq h3]; rfl
      · by_cases h4 : lowerStr h.1 == "bcc".data
        · rw [eq_of_beq h4]; rfl
        · by_cases h5 : lowerStr h.1 == "subject".data
          · rw [eq_of_beq h5]; rfl
          · by_cases h6 : lowerStr h.1 == "date".data
            · rw [eq_of_beq h6]; rfl
            · by_cases h7 : lowerStr h.1 == "message-id".data
              · rw [eq_of_beq h7]; rfl
              · by_cases h8 : lowerStr h.1 == "in-reply-to".data
                · rw [eq_of_beq h8]; rfl
                · by_cases h9 : lowerStr h.1 == "references".data
                  · rw [eq_of_beq h9]; rfl
                  · by_cases h10 : lowerStr h.1 == "content-type".data
                    · rw [eq_of_beq h10]; rfl
                    · by_cases h11 : lowerStr h.1 == "x-gmail-labels".data
                      · rw [eq_of_beq h11]; rfl
                      · simp [h1, h2, h3, h4, h5, h6, h7, h8, h9, h10, h11]

theorem applyHeader_body_plain (r : EmailRecord) (h : Str × Str) :
    (applyHeader r h).body_plain = r.body_plain := by
  dsimp only [applyHeader]
  simp only [apply_ite EmailRecord.body_plain, ite_self]

theorem applyHeader_body_html (r : EmailRecord) (h : Str × Str) :
    (applyHeader r h).body_html = r.body_html := by
  dsimp only [applyHeader]
  simp only [apply_ite EmailRecord.body_html, ite_self]

theorem scanGo_no_marker (ls : List Str)
    (hls : ∀ l ∈ ls, isFromLine l = false) (rest : List Str) (cur : Str) :
    scanGo (ls ++ rest) cur
      = scanGo rest (cur ++ (ls.map (fun l => l ++ ['\n'])).flatten) := by
  induction ls generalizing cur with
  | nil => simp
  | cons l t ih =>
    have hl : isFromLine l = false := hls l (by simp)
    show scanGo (l :: (t ++ rest)) cur = _
    dsimp only [scanGo]
    rw [hl]
    simp only [Bool.false_and, if_neg]
    rw [ih (fun x hx => hls x (by simp [hx])) (cur ++ (l ++ ['\n']))]
    simp [List.append_assoc]

theorem scanGo_msgs (msgs : List (List Str))
    (hw : ∀ m ∈ msgs, goodMsgB m = true) :
    ∀ cur : Str, cur ≠ [] → scanGo msgs.flatten cur = cur :: msgs.map blockOf := by
  induction msgs with
  | nil =>
    intro cur hcur
    have hne : cur.isEmpty = false := by
      cases cur with
      | nil => exact absurd rfl hcur
      | cons a b => rfl
    show (if cur.isEmpty then [] else [cur]) = [cur]
    rw [hne]
    rfl
  | cons m t ih =>
    intro cur hcur
    obtain ⟨l, tl, rfl⟩ : ∃ l tl, m = l :: tl := by
      cases m with
      | nil => exact absurd (hw [] (by simp)) (by simp [goodMsgB])
      | cons a b => exact ⟨a, b, rfl⟩
    have hm := hw (l :: tl) (by simp)
    simp only [goodMsgB, Bool.and_eq_true, List.all_eq_true] at hm
    obtain ⟨hl, htl⟩ := hm
    have hne : cur.isEmpty = false := by
      cases cur with
      | nil => exact absurd rfl hcur
      | cons a b => rfl
    have hjoin : ((l :: tl) :: t).flatten = l :: (tl ++ t.flatten) := by simp
    rw [hjoin]
    dsimp only [scanGo]
    rw [hl, hne]
    simp only [Bool.not_false, Bool.and_true, if_pos]
    rw [scanGo_no_marker tl (fun x hx => by simpa using htl x hx) t.flatten (l ++ ['\n'])]
    have hblock : (l ++ ['\n']) ++ (tl.map (fun x => x ++ ['\n'])).flatten
        = blockOf (l :: tl) := by
      simp [blockOf]
    rw [hblock, ih (fun x hx => hw x (by simp [hx])) (blockOf (l :: tl))
      (by simp [blockOf])]
    rfl

theorem processLines_eq (parseMail : Str → Option ParsedMail) (s t b : Bool) :
    ∀ (lines : List Str) (cur : Str) (st : DrvState),
      processLines parseMail s t b lines cur st
        = processBlocks parseMail s t b st (scanGo lines cur) := by
  intro lines
  induction lines with
  | nil =>
    intro cur st
    dsimp only [processLines, scanGo]
    by_cases hc : cur.isEmpty = true
    · rw [if_pos hc, if_pos hc]
      rfl
    · rw [if_neg hc, if_neg hc]
      rfl
  | cons l ls ih =>
    intro cur st
    dsimp only [processLines, scanGo]
    by_cases hc : (isFromLine l && !cur.isEmpty) = true
    · rw [if_pos hc, if_pos hc, ih (l ++ ['\n'])]
      rfl
    · rw [if_neg hc, if_neg hc]
      exact ih (cur ++ (l ++ ['\n'])) st

theorem handleBlock_fail {parseMail : Str → Option ParsedMail} {s t b : Bool}
    {block : Str} (hb : extract_email_data parseMail block = none) (st : DrvState) :
    handleBlock parseMail s t b st block = bumpWarn st := by
  dsimp only [handleBlock]
  rw [hb]
  rfl

theorem handleBlock_bumpWarn (parseMail : Str → Option ParsedMail) (s t b : Bool)
    (st : DrvState) (block : Str) :
    handleBlock parseMail s t b (bumpWarn st) block
      = bumpWarn (handleBlock parseMail s t b st block) := by
  dsimp only [handleBlock, bumpWarn]
  cases hx : extract_email_data parseMail block with
  | none => rfl
  | some r =>
    cases hs : should_skip_email r.gmail_labels s t b <;> simp [hs]

theorem processBlocks_bumpWarn (parseMail : Str → Option ParsedMail) (s t b : Bool) :
    ∀ (bs : List Str) (st : DrvState),
      processBlocks parseMail s t b (bumpWarn st) bs
        = bumpWarn (processBlocks parseMail s t b st bs) := by
  intro bs
  induction bs with
  | nil => intro st; rfl
  | cons x xs ih =>
    intro st
    show processBlocks parseMail s t b (handleBlock parseMail s t b (bumpWarn st) x) xs = _
    rw [handleBlock_bumpWarn, ih]
    rfl

theorem processBlocks_append (parseMail : Str → Option ParsedMail) (s t b : Bool)
    (bs1 bs2 : List Str) (st : DrvState) :
    processBlocks parseMail s t b st (bs1 ++ bs2)
      = processBlocks parseMail s t b (processBlocks parseMail s t b st bs1) bs2 :=
  List.foldl_append _ _ _ _

theorem processBlocks_stored_mono (parseMail : Str → Option ParsedMail) (s t b : Bool) :
    ∀ (bs : List Str) (st : DrvState),
      ∃ tailRows, (processBlocks parseMail s t b st bs).stored = st.stored ++ tailRows := by
  intro bs
  induction bs with
  | nil => intro st; exact ⟨[], by simp [processBlocks]⟩
  | cons x xs ih =>
    intro st
    show ∃ tailRows,
      (processBlocks parseMail s t b (handleBlock parseMail s t b st x) xs).stored = _
    obtain ⟨tr, htr⟩ := ih (handleBlock parseMail s t b st x)
    rw [htr]
    dsimp only [handleBlock]
    cases hx : extract_email_data parseMail x with
    | none => exact ⟨tr, rfl⟩
    | some r =>
      cases hs : should_skip_email r.gmail_labels s t b
      · exact ⟨⟨r, parse_email_date r.date⟩ :: tr, by simp [hs]⟩
      · exact ⟨tr, by simp [hs]⟩

theorem lastVal_cons_getD (hd : Str × Str) (t : List (Str × Str)) (k x : Str) :
    (lastVal (hd :: t) k).getD x =
      (lastVal t k).getD (if lowerStr hd.1 == k then hd.2 else x) := by
  show (match lastVal t k with
    | some v => some v
    | none => if lowerStr hd.1 == k then some hd.2 else none).getD x = _
  cases hlv : lastVal t k with
  | some v => simp
  | none => cases hif : (lowerStr hd.1 == k) <;> simp [hif]

theorem resolveDT_valid {wd : Option Nat} {year : Int}
    {month day hour minute second : Nat} {off : Option Int} {f : DT}
    (h : resolveDT wd year month day hour minute second off = some f) :
    validDT f := by
  dsimp only [resolveDT] at h
  split at h
  · rename_i hcond
    obtain ⟨a1, a2, a3, a4, a5, a6, a7, a8, a9, -, -⟩ := hcond
    cases h
    exact ⟨a1, a2, a3, a4, a5, a6, a7, a8, a9⟩
  · cases h

theorem parseRfc2822_valid {s : Str} {f : DT} (h : parseRfc2822 s = some f) :
    validDT f := by
  dsimp only [parseRfc2822] at h
  repeat' split at h
  all_goals first
    | exact resolveDT_valid h
    | cases h

theorem parseCtimeFmt_valid {s : Str} {f : DT} (h : parseCtimeFmt s = some f) :
    validDT f := by
  dsimp only [parseCtimeFmt] at h
  repeat' split at h
  all_goals first
    | exact resolveDT_valid h
    | cases h

theorem parseSlashAmPm_valid {s : Str} {f : DT} (h : parseSlashAmPm s = some f) :
    validDT f := by
  dsimp only [parseSlashAmPm] at h
  repeat' split at h
  all_goals first
    | exact resolveDT_valid h
    | cases h

theorem parseSlash24_valid {s : Str} {f : DT} (h : parseSlash24 s = some f) :
    validDT f := by
  dsimp only [parseSlash24] at h
  repeat' split at h
  all_goals first
    | exact resolveDT_valid h
    | cases h

theorem parseSlashDateOnly_none (s : Str) : parseSlashDateOnly s = none := by
  dsimp only [parseSlashDateOnly]
  split
  · rfl
  · split <;> rfl

theorem tryMissingComma_valid {s : Str} {f : DT} (h : tryMissingComma s = some f) :
    validDT f := by
  dsimp only [tryMissingComma] at h
  repeat' split at h
  all_goals first
    | exact parseRfc2822_valid h
    | cases h

theorem tryTwoDigitYear_valid {s : Str} {f : DT} (h : tryTwoDigitYear s = some f) :
    validDT f := by
  dsimp only [tryTwoDigitYear] at h
  repeat' split at h
  all_goals first
    | exact parseRfc2822_valid h
    | cases h

theorem tryCtime_valid {s : Str} {f : DT} (h : tryCtime s = some f) :
    validDT f := by
  dsimp only [tryCtime] at h
  repeat' split at h
  all_goals first
    | exact parseCtimeFmt_valid h
    | cases h

theorem trySlash_valid {s : Str} {f : DT} (h : trySlash s = some f) :
    validDT f := by
  dsimp only [trySlash] at h
  rw [parseSlashDateOnly_none] at h
  repeat' split at h
  all_goals first
    | (cases h
       first
         | exact parseSlashAmPm_valid (by assumption)
         | exact parseSlash24_valid (by assumption))
    | cases h

theorem parseDateCore_valid {s : Str} {f : DT} (h : parseDateCore s = some f) :
    validDT f := by
  dsimp only [parseDateCore] at h
  repeat' split at h
  all_goals first
    | exact trySlash_valid h
    | (cases h
       first
         | exact parseRfc2822_valid (by assumption)
         | exact tryMissingComma_valid (by assumption)
         | exact tryTwoDigitYear_valid (by assumption)
         | exact tryCtime_valid (by assumption))

theorem digitChar_mod_isDigit (n : Nat) : (Nat.digitChar (n % 10)).isDigit = true := by
  have hd : ∀ m : Nat, m < 10 → (Nat.digitChar m).isDigit = true := by decide
  exact hd _ (Nat.mod_lt _ (by norm_num))

theorem checkCanonical_cons_head {c : Char} {rest : Str}
    (h : checkCanonical (c :: rest) = true) : c.isDigit = true := by
  dsimp only [checkCanonical] at h
  split at h
  · rename_i heq
    simp only [List.cons.injEq] at heq
    obtain ⟨rfl, -⟩ := heq
    simp only [Bool.and_eq_true, and_assoc] at h
    exact h.1
  · exact absurd h (by simp)


theorem digit_beq_false {c x : Char} (hc : c.isDigit = true) (hx : x.isDigit = false) :
    (c == x) = false := by
  cases hbe : c == x
  · rfl
  · rw [eq_of_beq hbe] at hc
    rw [hc] at hx
    exact absurd hx (by simp)

theorem digit_beq_false' {c x : Char} (hc : c.isDigit = true) (hx : x.isDigit = false) :
    (x == c) = false := by
  cases hbe : x == c
  · rfl
  · rw [eq_of_beq hbe] at hx
    rw [hc] at hx
    exact absurd hx (by simp)

theorem dig_not_ws {c : Char} (hc : c.isDigit = true) : isWsB c = false := by
  unfold isWsB
  rw [digit_beq_false hc (by decide), digit_beq_false hc (by decide),
    digit_beq_false hc (by decide), digit_beq_false hc (by decide)]
  rfl

example : ('-').isDigit = false := rfl

theorem digit_eq_false {c x : Char} (hc : c.isDigit = true) (hx : x.isDigit = false) :
    (c = x) = False := by
  simp only [eq_iff_iff, iff_false]
  intro h
  rw [h] at hc
  rw [hc] at hx
  exact absurd hx (by simp)

theorem digit_eq_false' {c x : Char} (hc : c.isDigit = true) (hx : x.isDigit = false) :
    (x = c) = False := by
  simp only [eq_iff_iff, iff_false]
  intro h
  rw [← h] at hc
  rw [hc] at hx
  exact absurd hx (by simp)


theorem canonTrim (y1 y2 y3 y4 m1 m2 a1 a2 h1 h2 i1 i2 s1 s2 : Char)
    (d1 : y1.isDigit = true) (d14 : s2.isDigit = true) :
    trimS [y1, y2, y3, y4, '-', m1, m2, '-', a1, a2, ' ', h1, h2, ':', i1, i2, ':', s1, s2]
      = [y1, y2, y3, y4, '-', m1, m2, '-', a1, a2, ' ', h1, h2, ':', i1, i2, ':', s1, s2] := by
  simp [trimS, trimStartS, trimEndS, List.dropWhile_cons, dig_not_ws d1, dig_not_ws d14]

theorem canonDoubleDash (y1 y2 y3 y4 m1 m2 a1 a2 h1 h2 i1 i2 s1 s2 : Char)
    (d1 : y1.isDigit = true) (d2 : y2.isDigit = true) (d3 : y3.isDigit = true)
    (d4 : y4.isDigit = true) (d5 : m1.isDigit = true) (d6 : m2.isDigit = true)
    (d7 : a1.isDigit = true) (d8 : a2.isDigit = true) (d9 : h1.isDigit = true)
    (d10 : h2.isDigit = true) (d11 : i1.isDigit = true) (d12 : i2.isDigit = true)
    (d13 : s1.isDigit = true) (d14 : s2.isDigit = true) :
    strReplace [y1, y2, y3, y4, '-', m1, m2, '-', a1, a2, ' ', h1, h2, ':', i1, i2, ':', s1, s2]
      ("--".data) ("-".data)
      = [y1, y2, y3, y4, '-', m1, m2, '-', a1, a2, ' ', h1, h2, ':', i1, i2, ':', s1, s2] := by
  simp [strReplace, strReplaceGo, prefixOfB, digit_beq_false, digit_beq_false',
    digit_eq_false, digit_eq_false',
    d1, d2, d3, d4, d5, d6, d7, d8, d9, d10, d11, d12, d13, d14]

theorem canonTzGarbage (y1 y2 y3 y4 m1 m2 a1 a2 h1 h2 i1 i2 s1 s2 : Char)
    (d1 : y1.isDigit = true) (d2 : y2.isDigit = true) (d3 : y3.isDigit = true)
    (d4 : y4.isDigit = true) (d5 : m1.isDigit = true) (d6 : m2.isDigit = true)
    (d7 : a1.isDigit = true) (d8 : a2.isDigit = true) (d9 : h1.isDigit = true)
    (d10 : h2.isDigit = true) (d11 : i1.isDigit = true) (d12 : i2.isDigit = true)
    (d13 : s1.isDigit = true) (d14 : s2.isDigit = true) :
    fixTzGarbage [y1, y2, y3, y4, '-', m1, m2, '-', a1, a2, ' ', h1, h2, ':', i1, i2, ':', s1, s2]
      = [y1, y2, y3, y4, '-', m1, m2, '-', a1, a2, ' ', h1] := by
  simp [fixTzGarbage, rfindSignIdx, List.findIdx?, dig_not_ws,
    digit_beq_false, digit_beq_false', digit_eq_false, digit_eq_false',
    d1, d2, d3, d4, d5, d6, d7, d8, d9, d10, d11, d12, d13, d14]


theorem prefixOfB_mem {pat s : Str} {x : Char} (hp : prefixOfB pat s = true)
    (hx : x ∈ pat) : x ∈ s := by
  induction pat generalizing s with
  | nil => simp at hx
  | cons a as ih =>
    cases s with
    | nil => simp [prefixOfB] at hp
    | cons b bs =>
      simp only [prefixOfB, Bool.and_eq_true] at hp
      rcases List.mem_cons.mp hx with rfl | hx2
      · rw [eq_of_beq hp.1]
        exact List.mem_cons_self b bs
      · exact List.mem_cons.mpr (Or.inr (ih hp.2 hx2))

theorem strReplaceGo_zero_id {pat rep : Str} {x : Char} (hxp : x ∈ pat) :
    ∀ s : Str, x ∉ s → strReplaceGo pat rep s 0 = s := by
  intro s
  induction s with
  | nil => intro _; rfl
  | cons c rest ih =>
    intro hxs
    show strReplaceGo pat rep (c :: rest) 0 = c :: rest
    rw [strReplaceGo]
    rw [if_neg]
    · rw [ih (fun hm => hxs (List.mem_cons.mpr (Or.inr hm)))]
    · rintro ⟨-, hpre⟩
      exact hxs (prefixOfB_mem hpre hxp)

theorem strReplace_not_mem {pat rep : Str} {x : Char} (hxp : x ∈ pat)
    {s : Str} (hxs : x ∉ s) : strReplace s pat rep = s :=
  strReplaceGo_zero_id hxp s hxs

theorem canon12_not_mem {y1 y2 y3 y4 m1 m2 a1 a2 h1 : Char}
    (d1 : y1.isDigit = true) (d2 : y2.isDigit = true) (d3 : y3.isDigit = true)
    (d4 : y4.isDigit = true) (d5 : m1.isDigit = true) (d6 : m2.isDigit = true)
    (d7 : a1.isDigit = true) (d8 : a2.isDigit = true) (d9 : h1.isDigit = true)
    {x : Char} (hx : x.isDigit = false) (hdash : x ≠ '-') (hsp : x ≠ ' ') :
    x ∉ [y1, y2, y3, y4, '-', m1, m2, '-', a1, a2, ' ', h1] := by
  intro hm
  simp only [List.mem_cons, List.not_mem_nil, or_false] at hm
  rcases hm with rfl | rfl | rfl | rfl | rfl | rfl | rfl | rfl | rfl | rfl | rfl | rfl <;>
    simp_all

theorem canonParen (y1 y2 y3 y4 m1 m2 a1 a2 h1 : Char)
    (d1 : y1.isDigit = true) (d2 : y2.isDigit = true) (d3 : y3.isDigit = true)
    (d4 : y4.isDigit = true) (d5 : m1.isDigit = true) (d6 : m2.isDigit = true)
    (d7 : a1.isDigit = true) (d8 : a2.isDigit = true) (d9 : h1.isDigit = true) :
    fixParen [y1, y2, y3, y4, '-', m1, m2, '-', a1, a2, ' ', h1] = [y1, y2, y3, y4, '-', m1, m2, '-', a1, a2, ' ', h1] := by
  simp [fixParen, List.contains, List.elem, dig_not_ws,
    digit_beq_false, digit_beq_false', digit_eq_false, digit_eq_false',
    d1, d2, d3, d4, d5, d6, d7, d8, d9]

theorem canonGmt (y1 y2 y3 y4 m1 m2 a1 a2 h1 : Char)
    (d1 : y1.isDigit = true) (d2 : y2.isDigit = true) (d3 : y3.isDigit = true)
    (d4 : y4.isDigit = true) (d5 : m1.isDigit = true) (d6 : m2.isDigit = true)
    (d7 : a1.isDigit = true) (d8 : a2.isDigit = true) (d9 : h1.isDigit = true) :
    gmtReplaceAll [y1, y2, y3, y4, '-', m1, m2, '-', a1, a2, ' ', h1] = [y1, y2, y3, y4, '-', m1, m2, '-', a1, a2, ' ', h1] := by
  simp [gmtReplaceAll, gmtGo, gmtMatchAt, dig_not_ws,
    digit_beq_false, digit_beq_false', digit_eq_false, digit_eq_false',
    d1, d2, d3, d4, d5, d6, d7, d8, d9]

theorem canonZones (y1 y2 y3 y4 m1 m2 a1 a2 h1 : Char)
    (d1 : y1.isDigit = true) (d2 : y2.isDigit = true) (d3 : y3.isDigit = true)
    (d4 : y4.isDigit = true) (d5 : m1.isDigit = true) (d6 : m2.isDigit = true)
    (d7 : a1.isDigit = true) (d8 : a2.isDigit = true) (d9 : h1.isDigit = true) :
    fixZoneNames [y1, y2, y3, y4, '-', m1, m2, '-', a1, a2, ' ', h1] = [y1, y2, y3, y4, '-', m1, m2, '-', a1, a2, ' ', h1] := by
  have hnm : ∀ x : Char, x.isDigit = false → x ≠ '-' → x ≠ ' ' →
      x ∉ [y1, y2, y3, y4, '-', m1, m2, '-', a1, a2, ' ', h1] :=
    fun x hx hd hs => canon12_not_mem d1 d2 d3 d4 d5 d6 d7 d8 d9 hx hd hs
  dsimp only [fixZoneNames]
  rw [strReplace_not_mem (show 'E' ∈ ("Eastern Daylight Time".data) from by decide) (hnm 'E' (by decide) (by decide) (by decide)),
    strReplace_not_mem (show 'E' ∈ ("Eastern Standard Time".data) from by decide) (hnm 'E' (by decide) (by decide) (by decide)),
    strReplace_not_mem (show 'P' ∈ ("Pacific Daylight Time".data) from by decide) (hnm 'P' (by decide) (by decide) (by decide)),
    strReplace_not_mem (show 'P' ∈ ("Pacific Standard Time".data) from by decide) (hnm 'P' (by decide) (by decide) (by decide)),
    strReplace_not_mem (show 'C' ∈ ("Central Daylight Time".data) from by decide) (hnm 'C' (by decide) (by decide) (by decide)),
    strReplace_not_mem (show 'C' ∈ ("Central Standard Time".data) from by decide) (hnm 'C' (by decide) (by decide) (by decide)),
    strReplace_not_mem (show 'M' ∈ ("Mountain Daylight Time".data) from by decide) (hnm 'M' (by decide) (by decide) (by decide)),
    strReplace_not_mem (show 'M' ∈ ("Mountain Standard Time".data) from by decide) (hnm 'M' (by decide) (by decide) (by decide)),
    strReplace_not_mem (show 'U' ∈ (" UTC".data) from by decide) (hnm 'U' (by decide) (by decide) (by decide)),
    strReplace_not_mem (show 'G' ∈ (" GMT".data) from by decide) (hnm 'G' (by decide) (by decide) (by decide)),
    strReplace_not_mem (show 'E' ∈ (" EDT".data) from by decide) (hnm 'E' (by decide) (by decide) (by decide)),
    strReplace_not_mem (show 'E' ∈ (" EST".data) from by decide) (hnm 'E' (by decide) (by decide) (by decide)),
    strReplace_not_mem (show 'C' ∈ (" CDT".data) from by decide) (hnm 'C' (by decide) (by decide) (by decide)),
    strReplace_not_mem (show 'C' ∈ (" CST".data) from by decide) (hnm 'C' (by decide) (by decide) (by decide)),
    strReplace_not_mem (show 'P' ∈ (" PDT".data) from by decide) (hnm 'P' (by decide) (by decide) (by decide)),
    strReplace_not_mem (show 'P' ∈ (" PST".data) from by decide) (hnm 'P' (by decide) (by decide) (by decide)),
    strReplace_not_mem (show 'C' ∈ (" CET".data) from by decide) (hnm 'C' (by decide) (by decide) (by decide))]

theorem canonTz3 (y1 y2 y3 y4 m1 m2 a1 a2 h1 : Char)
    (d1 : y1.isDigit = true) (d2 : y2.isDigit = true) (d3 : y3.isDigit = true)
    (d4 : y4.isDigit = true) (d5 : m1.isDigit = true) (d6 : m2.isDigit = true)
    (d7 : a1.isDigit = true) (d8 : a2.isDigit = true) (d9 : h1.isDigit = true) :
    tz3ReplaceAll [y1, y2, y3, y4, '-', m1, m2, '-', a1, a2, ' ', h1] = [y1, y2, y3, y4, '-', m1, m2, '-', a1, a2, ' ', h1] := by
  simp [tz3ReplaceAll, tz3MatchAt, dig_not_ws,
    digit_beq_false, digit_beq_false', digit_eq_false, digit_eq_false',
    d1, d2, d3, d4, d5, d6, d7, d8, d9]

theorem canonSdt (y1 y2 y3 y4 m1 m2 a1 a2 h1 : Char)
    (d1 : y1.isDigit = true) (d2 : y2.isDigit = true) (d3 : y3.isDigit = true)
    (d4 : y4.isDigit = true) (d5 : m1.isDigit = true) (d6 : m2.isDigit = true)
    (d7 : a1.isDigit = true) (d8 : a2.isDigit = true) (d9 : h1.isDigit = true) :
    sdtReplaceAll [y1, y2, y3, y4, '-', m1, m2, '-', a1, a2, ' ', h1] = [y1, y2, y3, y4, '-', m1, m2, '-', a1, a2, ' ', h1] := by
  simp [sdtReplaceAll, sdtGo, sdtMatchAt, boundaryNext, wordChar, dig_not_ws,
    digit_beq_false, digit_beq_false', digit_eq_false, digit_eq_false',
    d1, d2, d3, d4, d5, d6, d7, d8, d9]

theorem canonMs (y1 y2 y3 y4 m1 m2 a1 a2 h1 : Char)
    (d1 : y1.isDigit = true) (d2 : y2.isDigit = true) (d3 : y3.isDigit = true)
    (d4 : y4.isDigit = true) (d5 : m1.isDigit = true) (d6 : m2.isDigit = true)
    (d7 : a1.isDigit = true) (d8 : a2.isDigit = true) (d9 : h1.isDigit = true) :
    msReplaceAll [y1, y2, y3, y4, '-', m1, m2, '-', a1, a2, ' ', h1] = [y1, y2, y3, y4, '-', m1, m2, '-', a1, a2, ' ', h1] := by
  simp [msReplaceAll, msGo, msMatchAt, boundaryNext, wordChar, dig_not_ws,
    digit_beq_false, digit_beq_false', digit_eq_false, digit_eq_false',
    d1, d2, d3, d4, d5, d6, d7, d8, d9]

theorem canonAmPm (y1 y2 y3 y4 m1 m2 a1 a2 h1 : Char)
    (d1 : y1.isDigit = true) (d2 : y2.isDigit = true) (d3 : y3.isDigit = true)
    (d4 : y4.isDigit = true) (d5 : m1.isDigit = true) (d6 : m2.isDigit = true)
    (d7 : a1.isDigit = true) (d8 : a2.isDigit = true) (d9 : h1.isDigit = true) :
    fixAmPm [y1, y2, y3, y4, '-', m1, m2, '-', a1, a2, ' ', h1] = [y1, y2, y3, y4, '-', m1, m2, '-', a1, a2, ' ', h1] := by
  have hnm : ∀ x : Char, x.isDigit = false → x ≠ '-' → x ≠ ' ' →
      x ∉ [y1, y2, y3, y4, '-', m1, m2, '-', a1, a2, ' ', h1] :=
    fun x hx hd hs => canon12_not_mem d1 d2 d3 d4 d5 d6 d7 d8 d9 hx hd hs
  dsimp only [fixAmPm]
  rw [strReplace_not_mem (show 'P' ∈ ("PM+".data) from by decide) (hnm 'P' (by decide) (by decide) (by decide)),
    strReplace_not_mem (show 'P' ∈ ("PM-".data) from by decide) (hnm 'P' (by decide) (by decide) (by decide)),
    strReplace_not_mem (show 'A' ∈ ("AM+".data) from by decide) (hnm 'A' (by decide) (by decide) (by decide)),
    strReplace_not_mem (show 'A' ∈ ("AM-".data) from by decide) (hnm 'A' (by decide) (by decide) (by decide)),
    strReplace_not_mem (show 'P' ∈ (" PM ".data) from by decide) (hnm 'P' (by decide) (by decide) (by decide)),
    strReplace_not_mem (show 'A' ∈ (" AM ".data) from by decide) (hnm 'A' (by decide) (by decide) (by decide))]

theorem canonDays (y1 y2 y3 y4 m1 m2 a1 a2 h1 : Char)
    (d1 : y1.isDigit = true) (d2 : y2.isDigit = true) (d3 : y3.isDigit = true)
    (d4 : y4.isDigit = true) (d5 : m1.isDigit = true) (d6 : m2.isDigit = true)
    (d7 : a1.isDigit = true) (d8 : a2.isDigit = true) (d9 : h1.isDigit = true) :
    fixDayNames [y1, y2, y3, y4, '-', m1, m2, '-', a1, a2, ' ', h1] = [y1, y2, y3, y4, '-', m1, m2, '-', a1, a2, ' ', h1] := by
  have hnm : ∀ x : Char, x.isDigit = false → x ≠ '-' → x ≠ ' ' →
      x ∉ [y1, y2, y3, y4, '-', m1, m2, '-', a1, a2, ' ', h1] :=
    fun x hx hd hs => canon12_not_mem d1 d2 d3 d4 d5 d6 d7 d8 d9 hx hd hs
  dsimp only [fixDayNames]
  rw [strReplace_not_mem (show 'M' ∈ ("Monday".data) from by decide) (hnm 'M' (by decide) (by decide) (by decide)),
    strReplace_not_mem (show 'T' ∈ ("Tuesday".data) from by decide) (hnm 'T' (by decide) (by decide) (by decide)),
    strReplace_not_mem (show 'W' ∈ ("Wednesday".data) from by decide) (hnm 'W' (by decide) (by decide) (by decide)),
    strReplace_not_mem (show 'T' ∈ ("Thursday".data) from by decide) (hnm 'T' (by decide) (by decide) (by decide)),
    strReplace_not_mem (show 'T' ∈ ("Thurs,".data) from by decide) (hnm 'T' (by decide) (by decide) (by decide)),
    strReplace_not_mem (show 'F' ∈ ("Friday".data) from by decide) (hnm 'F' (by decide) (by decide) (by decide)),
    strReplace_not_mem (show 'S' ∈ ("Saturday".data) from by decide) (hnm 'S' (by decide) (by decide) (by decide)),
    strReplace_not_mem (show 'S' ∈ ("Sunday".data) from by decide) (hnm 'S' (by decide) (by decide) (by decide))]

theorem canonMonths (y1 y2 y3 y4 m1 m2 a1 a2 h1 : Char)
    (d1 : y1.isDigit = true) (d2 : y2.isDigit = true) (d3 : y3.isDigit = true)
    (d4 : y4.isDigit = true) (d5 : m1.isDigit = true) (d6 : m2.isDigit = true)
    (d7 : a1.isDigit = true) (d8 : a2.isDigit = true) (d9 : h1.isDigit = true) :
    fixMonthNames [y1, y2, y3, y4, '-', m1, m2, '-', a1, a2, ' ', h1] = [y1, y2, y3, y4, '-', m1, m2, '-', a1, a2, ' ', h1] := by
  have hnm : ∀ x : Char, x.isDigit = false → x ≠ '-' → x ≠ ' ' →
      x ∉ [y1, y2, y3, y4, '-', m1, m2, '-', a1, a2, ' ', h1] :=
    fun x hx hd hs => canon12_not_mem d1 d2 d3 d4 d5 d6 d7 d8 d9 hx hd hs
  dsimp only [fixMonthNames]
  rw [strReplace_not_mem (show 'J' ∈ ("January".data) from by decide) (hnm 'J' (by decide) (by decide) (by decide)),
    strReplace_not_mem (show 'F' ∈ ("February".data) from by decide) (hnm 'F' (by decide) (by decide) (by decide)),
    strReplace_not_mem (show 'M' ∈ ("March".data) from by decide) (hnm 'M' (by decide) (by decide) (by decide)),
    strReplace_not_mem (show 'A' ∈ ("April".data) from by decide) (hnm 'A' (by decide) (by decide) (by decide)),
    strReplace_not_mem (show 'J' ∈ ("June".data) from by decide) (hnm 'J' (by decide) (by decide) (by decide)),
    strReplace_not_mem (show 'J' ∈ ("July".data) from by decide) (hnm 'J' (by decide) (by decide) (by decide)),
    strReplace_not_mem (show 'A' ∈ ("August".data) from by decide) (hnm 'A' (by decide) (by decide) (by decide)),
    strReplace_not_mem (show 'S' ∈ ("September".data) from by decide) (hnm 'S' (by decide) (by decide) (by decide)),
    strReplace_not_mem (show 'O' ∈ ("October".data) from by decide) (hnm 'O' (by decide) (by decide) (by decide)),
    strReplace_not_mem (show 'N' ∈ ("November".data) from by decide) (hnm 'N' (by decide) (by decide) (by decide)),
    strReplace_not_mem (show 'D' ∈ ("December".data) from by decide) (hnm 'D' (by decide) (by decide) (by decide))]

theorem low_digit {c : Char} (hc : c.isDigit = true) : lowAscii c = c := by
  unfold lowAscii
  rw [if_neg]
  intro hAZ
  have h57 : c.val ≤ 57 := by
    have hcv : (c.val ≥ 48 && c.val ≤ 57) = true := hc
    simp at hcv
    exact hcv.2
  have h65 : (65 : UInt32) ≤ c.val := hAZ.1
  have hn1 : c.val.toNat ≤ (57 : UInt32).toNat := h57
  have hn2 : (65 : UInt32).toNat ≤ c.val.toNat := h65
  have e1 : (57 : UInt32).toNat = 57 := rfl
  have e2 : (65 : UInt32).toNat = 65 := rfl
  omega

theorem isDigit_dash : ('-').isDigit = false := rfl
theorem isDigit_space : (' ').isDigit = false := rfl
theorem isDigit_colon : (':').isDigit = false := rfl
theorem isWsB_dash : isWsB '-' = false := rfl
theorem isWsB_space : isWsB ' ' = true := rfl
theorem isWsB_colon : isWsB ':' = false := rfl

theorem canonRfc2822 (y1 y2 y3 y4 m1 m2 a1 a2 h1 : Char)
    (d1 : y1.isDigit = true) (d2 : y2.isDigit = true) (d3 : y3.isDigit = true)
    (d4 : y4.isDigit = true) (d5 : m1.isDigit = true) (d6 : m2.isDigit = true)
    (d7 : a1.isDigit = true) (d8 : a2.isDigit = true) (d9 : h1.isDigit = true) :
    parseRfc2822 [y1, y2, y3, y4, '-', m1, m2, '-', a1, a2, ' ', h1] = none := by
  simp [parseRfc2822, rfcAfterWeekday, scanShortWeekday, scanNumber, scanSpace,
    trimStartS, List.takeWhile, List.dropWhile, low_digit, dig_not_ws,
    isDigit_dash, isDigit_space, isDigit_colon, isWsB_dash, isWsB_space, isWsB_colon,
    digit_beq_false, digit_beq_false', digit_eq_false, digit_eq_false',
    d1, d2, d3, d4, d5, d6, d7, d8, d9]

theorem canonSplitWs (y1 y2 y3 y4 m1 m2 a1 a2 h1 : Char)
    (d1 : y1.isDigit = true) (d2 : y2.isDigit = true) (d3 : y3.isDigit = true)
    (d4 : y4.isDigit = true) (d5 : m1.isDigit = true) (d6 : m2.isDigit = true)
    (d7 : a1.isDigit = true) (d8 : a2.isDigit = true) (d9 : h1.isDigit = true) :
    splitWs [y1, y2, y3, y4, '-', m1, m2, '-', a1, a2, ' ', h1]
      = [[y1, y2, y3, y4, '-', m1, m2, '-', a1, a2], [h1]] := by
  simp [splitWs, splitWsGo, dig_not_ws, isWsB_dash, isWsB_space,
    d1, d2, d3, d4, d5, d6, d7, d8, d9]

theorem canonStageB (y1 y2 y3 y4 m1 m2 a1 a2 h1 : Char)
    (d1 : y1.isDigit = true) (d2 : y2.isDigit = true) (d3 : y3.isDigit = true)
    (d4 : y4.isDigit = true) (d5 : m1.isDigit = true) (d6 : m2.isDigit = true)
    (d7 : a1.isDigit = true) (d8 : a2.isDigit = true) (d9 : h1.isDigit = true) :
    parseDateCore [y1, y2, y3, y4, '-', m1, m2, '-', a1, a2, ' ', h1] = none := by
  have hsp := canonSplitWs y1 y2 y3 y4 m1 m2 a1 a2 h1 d1 d2 d3 d4 d5 d6 d7 d8 d9
  have hrfc := canonRfc2822 y1 y2 y3 y4 m1 m2 a1 a2 h1 d1 d2 d3 d4 d5 d6 d7 d8 d9
  dsimp only [parseDateCore, tryMissingComma, tryTwoDigitYear, tryCtime, trySlash]
  rw [hsp, hrfc]
  simp [List.contains, List.elem, digit_beq_false, digit_beq_false',
    digit_eq_false, digit_eq_false',
    d1, d2, d3, d4, d5, d6, d7, d8, d9]


/-! ## Claim theorems -/

/-- C5: for every labels string and flag combination, `should_skip_email`
returns false when `includeBoth` holds, and otherwise skips exactly when
a case-insensitive "spam" occurrence meets `includeSpam = false` or a
case-insensitive "trash" occurrence meets `includeTrash = false`; a
labels string containing neither substring is never skipped. -/
theorem c5_retention_filter :
    (∀ (labels : Str) (s t b : Bool),
      should_skip_email labels s t b =
        (!b && ((containsSub (lowerStr labels) ("spam".data) && !s)
          || (containsSub (lowerStr labels) ("trash".data) && !t))))
    ∧ (∀ (labels : Str) (s t b : Bool),
        containsSub (lowerStr labels) ("spam".data) = false →
        containsSub (lowerStr labels) ("trash".data) = false →
        should_skip_email labels s t b = false) := by
  constructor
  · intro labels s t b
    dsimp only [should_skip_email]
    cases b <;> cases s <;> cases t <;>
      cases h1 : containsSub (lowerStr labels) ("spam".data) <;>
      cases h2 : containsSub (lowerStr labels) ("trash".data) <;> simp [h1, h2]
  · intro labels s t b h1 h2
    dsimp only [should_skip_email]
    cases b <;> simp [h1, h2]

/-- Witness for C5 at the spec's own example inputs. -/
theorem c5_retention_filter_witness :
    should_skip_email ("Inbox, Spam".data) false false false = true
    ∧ should_skip_email ("Inbox".data) false false false = false := by
  constructor
  · rw [c5_retention_filter.1]; decide
  · exact c5_retention_filter.2 ("Inbox".data) false false false (by decide) (by decide)

/-- C3 counterexample: a line starting with a tab (and not blank) is
passed through unchanged by the extractor's preprocessing, although the
claim says its leading whitespace is stripped. -/
theorem c3_counterexample :
    fixLine ("\tx".data) = "\tx".data ∧ trimStartS ("\tx".data) = "x".data
    ∧ ("\tx".data : Str) ≠ "x".data := by decide

/-- C3 amended: in the extractor's preprocessing, a line beginning with
a space (`' '` only, not tab) that is not blank is fully left-trimmed;
every other line is passed through unchanged — both a line not
beginning with a space (tab-led lines included) and a blank
(all-whitespace or empty) line, whatever it starts with; and the
preprocessing is exactly this per-line map re-joined with newlines. -/
theorem c3_space_only_strip :
    (∀ l : Str, startsWithS l [' '] = true → (trimStartS l).isEmpty = false →
      fixLine l = trimStartS l)
    ∧ (∀ l : Str, startsWithS l [' '] = false → fixLine l = l)
    ∧ (∀ l : Str, (trimStartS l).isEmpty = true → fixLine l = l)
    ∧ (∀ raw : Str, fixupEmail raw = joinNl ((rustLines raw).map fixLine)) := by
  refine ⟨?_, ?_, ?_, fun _ => rfl⟩
  · intro l h1 h2
    dsimp only [fixLine]
    rw [if_pos (by simp [h1, h2])]
  · intro l h1
    dsimp only [fixLine]
    rw [if_neg (by simp [h1])]
  · intro l h1
    dsimp only [fixLine]
    rw [if_neg (by simp [h1])]

/-- Witness for C3 (amended): a space-led line is trimmed, a tab-led
line is untouched, and a space-led blank line is untouched. -/
theorem c3_space_only_strip_witness :
    fixLine (" x".data) = "x".data ∧ fixLine ("\tx".data) = "\tx".data
    ∧ fixLine ("   ".data) = "   ".data := by
  refine ⟨?_, ?_, ?_⟩
  · rw [c3_space_only_strip.1 (" x".data) (by decide) (by decide)]; decide
  · exact c3_space_only_strip.2.1 ("\tx".data) (by decide)
  · exact c3_space_only_strip.2.2.1 ("   ".data) (by decide)

/-- C10: a leaf part whose body cannot be decoded leaves the record
unchanged (both `body_plain` and `body_html` keep their prior values),
and extraction still succeeds whenever the MIME collaborator parses the
repaired block. -/
theorem c10_body_decode_failure_local :
    (∀ (hs : List (Str × Str)) (r : EmailRecord), extract_body (.mk hs none []) r = r)
    ∧ (∀ (parseMail : Str → Option ParsedMail) (raw : Str) (p : ParsedMail),
        parseMail (fixupEmail raw) = some p →
        extract_email_data parseMail raw =
          some (extract_body p (collectHeaders p.headers emptyRecord))) := by
  constructor
  · intro hs r; rfl
  · intro pm raw p h
    dsimp only [extract_email_data]
    rw [h]

/-- Witness for C10 at a concrete collaborator and block. -/
theorem c10_body_decode_failure_local_witness :
    extract_email_data (fun _ => some (ParsedMail.mk [] none [])) ("From a".data)
      = some emptyRecord := by
  rw [c10_body_decode_failure_local.2 (fun _ => some (ParsedMail.mk [] none []))
    ("From a".data) (ParsedMail.mk [] none []) rfl]
  rw [c10_body_decode_failure_local.1]
  rfl

/-- C2 counterexample: with two case-variant `From` headers the
extractor's loop keeps the value of the second (later) occurrence, not
the first as claimed. -/
theorem c2_counterexample :
    (collectHeaders [("From".data, "first".data), ("FROM".data, "second".data)]
      emptyRecord).fromAddr = "second".data
    ∧ ("second".data : Str) ≠ "first".data := by decide

/-- C2 amended: header collection matches keys case-insensitively, but
the LAST occurrence of a duplicated header wins (assignment in the loop
overwrites earlier values); the body fields are untouched. -/
theorem c2_last_header_occurrence_wins (hs : List (Str × Str)) (r : EmailRecord) :
    collectHeaders hs r = {
      fromAddr := (lastVal hs ("from".data)).getD r.fromAddr,
      toAddr := (lastVal hs ("to".data)).getD r.toAddr,
      cc := (lastVal hs ("cc".data)).getD r.cc,
      bcc := (lastVal hs ("bcc".data)).getD r.bcc,
      subject := (lastVal hs ("subject".data)).getD r.subject,
      date := (lastVal hs ("date".data)).getD r.date,
      message_id := (lastVal hs ("message-id".data)).getD r.message_id,
      in_reply_to := (lastVal hs ("in-reply-to".data)).getD r.in_reply_to,
      references := (lastVal hs ("references".data)).getD r.references,
      content_type := (lastVal hs ("content-type".data)).getD r.content_type,
      body_plain := r.body_plain,
      body_html := r.body_html,
      gmail_labels := (lastVal hs ("x-gmail-labels".data)).getD r.gmail_labels } := by
  induction hs generalizing r with
  | nil => rfl
  | cons h t ih =>
    show collectHeaders t (applyHeader r h) = _
    rw [ih (applyHeader r h)]
    simp only [applyHeader_fromAddr, applyHeader_toAddr, applyHeader_cc,
      applyHeader_bcc, applyHeader_subject, applyHeader_date,
      applyHeader_message_id, applyHeader_in_reply_to, applyHeader_references,
      applyHeader_content_type, applyHeader_gmail_labels,
      applyHeader_body_plain, applyHeader_body_html, lastVal_cons_getD]

/-- C7 counterexample: the engine does NOT normalize
`"Tue 02 Mar 2021 9:5:3 EST"` to `"2021-03-02 09:05:03"`. -/
theorem c7_counterexample :
    parse_email_date ("Tue 02 Mar 2021 9:5:3 EST".data)
      ≠ some ("2021-03-02 09:05:03".data) := by decide

/-- C7 amended: on `"Tue 02 Mar 2021 9:5:3 EST"` stage A performs the
EST substitution and pads the minute and second, but the single-digit
hour stays unpadded (the hour-padding pattern requires two-digit
minutes and seconds, which `9:5:3` does not have), so every stage-B
attempt fails — the internet-mail format demands a two-digit hour — and
the engine returns None. -/
theorem c7_single_digit_hour_fails :
    stageA ("Tue 02 Mar 2021 9:5:3 EST".data)
      = ("Tue 02 Mar 2021 9:05:03 -0500".data)
    ∧ parse_email_date ("Tue 02 Mar 2021 9:5:3 EST".data) = none := by decide

/-- C4 counterexample: the engine does NOT normalize
`"Thu, 11 Jun 68 14:03:01 -0400"` to `"1968-06-11 14:03:01"` (it
returns None: 11 June 1968 was a Tuesday, and the internet-mail parser
rejects the mismatched `Thu` weekday both on the direct attempt — which
already expands the 2-digit year itself — and on the pivot-expanded
retry). -/
theorem c4_counterexample :
    parse_email_date ("Thu, 11 Jun 68 14:03:01 -0400".data)
      ≠ some ("1968-06-11 14:03:01".data) := by decide

/-- C4 amended: the stage-B step is as described — when the earlier
attempts have failed and the 4th whitespace token is exactly 2 digits,
exactly that token (as the substring framed by spaces) is expanded with
the `> 50` pivot and the internet-mail format is retried; the first
example yields `Some "2009-06-11 14:03:01"`, but the second yields
`None`, because 11 June 1968 was a Tuesday (chrono weekday index 1) and
the internet-mail parser validates the written weekday `Thu`. -/
theorem c4_two_digit_year_pivot :
    (∀ (cleaned yp : Str), (splitWs cleaned).get? 3 = some yp →
      yp.length = 2 → yp.all Char.isDigit = true →
      tryTwoDigitYear cleaned =
        parseRfc2822 (strReplace cleaned (' ' :: (yp ++ [' ']))
          (' ' :: (natDigits (if natOfDigits yp > 50 then 1900 + natOfDigits yp
            else 2000 + natOfDigits yp) ++ [' ']))))
    ∧ parse_email_date ("Thu, 11 Jun 09 14:03:01 -0400".data)
        = some ("2009-06-11 14:03:01".data)
    ∧ parse_email_date ("Thu, 11 Jun 68 14:03:01 -0400".data) = none
    ∧ dayOfWeekMon0 1968 6 11 = 1 := by
  refine ⟨?_, by decide, by decide, by decide⟩
  intro cleaned yp hget hlen hdig
  have h4 : 4 ≤ (splitWs cleaned).length := by
    rcases List.get?_eq_some.mp hget with ⟨hlt, -⟩
    omega
  dsimp only [tryTwoDigitYear]
  rw [if_pos h4, hget]
  simp [hlen, hdig]

/-- Witness for C4 (amended, mechanism part) at the spec's second
example after stage A. -/
theorem c4_two_digit_year_pivot_witness :
    tryTwoDigitYear ("Thu, 11 Jun 68 14:03:01 -0400".data)
      = parseRfc2822 ("Thu, 11 Jun 1968 14:03:01 -0400".data) := by
  rw [c4_two_digit_year_pivot.1 ("Thu, 11 Jun 68 14:03:01 -0400".data)
    ("68".data) (by decide) (by decide) (by decide)]
  decide

/-- C6: for any list of well-formed messages (each non-empty, starting
with a `From `-marked line and containing no other such line), the
scanner run on their concatenated lines emits exactly one block per
message, each block being exactly that message's lines with a newline
appended to each; in particular a single such message yields exactly
one block. -/
theorem c6_boundary_scan (msgs : List (List Str))
    (hw : ∀ m ∈ msgs, goodMsgB m = true) :
    mboxBlocks msgs.flatten = msgs.map blockOf
      ∧ (mboxBlocks msgs.flatten).length = msgs.length := by
  have main : mboxBlocks msgs.flatten = msgs.map blockOf := by
    cases msgs with
    | nil => rfl
    | cons m t =>
      obtain ⟨l, tl, rfl⟩ : ∃ l tl, m = l :: tl := by
        cases m with
        | nil => exact absurd (hw [] (by simp)) (by simp [goodMsgB])
        | cons a b => exact ⟨a, b, rfl⟩
      have hm := hw (l :: tl) (by simp)
      simp only [goodMsgB, Bool.and_eq_true, List.all_eq_true] at hm
      obtain ⟨hl, htl⟩ := hm
      have hflat : ((l :: tl) :: t).flatten = l :: (tl ++ t.flatten) := by simp
      dsimp only [mboxBlocks]
      rw [hflat]
      dsimp only [scanGo]
      rw [if_neg (by simp)]
      rw [show ([] : Str) ++ (l ++ ['\n']) = l ++ ['\n'] from rfl]
      rw [scanGo_no_marker tl (fun x hx => by simpa using htl x hx) t.flatten
        (l ++ ['\n'])]
      have hblock : (l ++ ['\n']) ++ (tl.map (fun x => x ++ ['\n'])).flatten
          = blockOf (l :: tl) := by
        simp [blockOf]
      rw [hblock, scanGo_msgs t (fun x hx => hw x (by simp [hx])) (blockOf (l :: tl))
        (by simp [blockOf])]
      rfl
  exact ⟨main, by rw [main]; simp⟩

/-- Witness for C6 at a concrete two-message input and a concrete
one-message input. -/
theorem c6_boundary_scan_witness :
    mboxBlocks ([["From a".data, "x".data], ["From b".data]].flatten)
      = [("From a\nx\n".data), ("From b\n".data)]
    ∧ mboxBlocks ([["From a".data, "x".data]].flatten) = [("From a\nx\n".data)] := by
  constructor
  · rw [(c6_boundary_scan [["From a".data, "x".data], ["From b".data]] (by decide)).1]
    decide
  · rw [(c6_boundary_scan [["From a".data, "x".data]] (by decide)).1]
    decide

/-- C9: a block whose extraction fails is strictly local: the driver
over any block sequence containing it produces exactly the state the
same sequence without it produces, except for one extra warning — so
every earlier accepted row is retained, every later block is processed
and stored identically, and the batch never aborts; moreover the
interleaved driver loop equals the scanner followed by per-block
processing, and the stored rows only ever grow. -/
theorem c9_per_message_failures_local (parseMail : Str → Option ParsedMail)
    (s t b : Bool) (pre post : List Str) (bad : Str)
    (hbad : extract_email_data parseMail bad = none) (st : DrvState) :
    processBlocks parseMail s t b st (pre ++ bad :: post)
      = bumpWarn (processBlocks parseMail s t b st (pre ++ post))
    ∧ (∃ tailRows, (processBlocks parseMail s t b st (pre ++ bad :: post)).stored
        = (processBlocks parseMail s t b st pre).stored ++ tailRows)
    ∧ (∀ lines : List Str, process_mbox parseMail s t b lines
        = processBlocks parseMail s t b {} (mboxBlocks lines)) := by
  have main : processBlocks parseMail s t b st (pre ++ bad :: post)
      = bumpWarn (processBlocks parseMail s t b st (pre ++ post)) := by
    rw [processBlocks_append, processBlocks_append]
    show processBlocks parseMail s t b
      (handleBlock parseMail s t b (processBlocks parseMail s t b st pre) bad) post = _
    rw [handleBlock_fail hbad, processBlocks_bumpWarn]
  refine ⟨main, ?_, ?_⟩
  · rw [main]
    obtain ⟨tr, htr⟩ := processBlocks_stored_mono parseMail s t b post
      (processBlocks parseMail s t b st pre)
    exact ⟨tr, by rw [show ∀ st' : DrvState, (bumpWarn st').stored = st'.stored
      from fun _ => rfl, processBlocks_append, htr]⟩
  · intro lines
    exact processLines_eq parseMail s t b lines [] {}

/-- C8 counterexample: an input with a five-digit year is normalized
successfully, but the output is 21 characters with a leading sign, not
the 19-character canonical form. -/
theorem c8_counterexample :
    parse_email_date ("11 Jun 99999 14:03:01 -0400".data)
      = some ("+99999-06-11 14:03:01".data)
    ∧ checkCanonical ("+99999-06-11 14:03:01".data) = false
    ∧ ("+99999-06-11 14:03:01".data).length ≠ 19 := by decide

/-- C8 amended: every successful normalization is the fixed
`%Y-%m-%d %H:%M:%S` rendering of an in-range field record; that
rendering has the 19-character canonical `YYYY-MM-DD HH:MM:SS` shape
exactly when the year lies in `[0, 10000)` (chrono renders every other
year with an explicit sign first, which is not a digit, so the
canonical shape fails); and empty or whitespace-only input yields
None. -/
theorem c8_canonical_output_shape :
    (∀ (s out : Str), parse_email_date s = some out →
      ∃ f : DT, validDT f ∧ out = formatDT f)
    ∧ (∀ f : DT, checkCanonical (formatDT f) = true ↔ (0 ≤ f.year ∧ f.year < 10000))
    ∧ (∀ s : Str, (∀ c ∈ s, isWsB c = true) → parse_email_date s = none) := by
  refine ⟨?_, ?_, ?_⟩
  · intro s out h
    dsimp only [parse_email_date] at h
    split at h
    · cases h
    · rw [Option.map_eq_some'] at h
      obtain ⟨f, hf, rfl⟩ := h
      exact ⟨f, parseDateCore_valid hf, rfl⟩
  · intro f
    constructor
    · intro hcc
      by_contra hy
      dsimp only [formatDT, formatYear] at hcc
      rw [if_neg hy, List.cons_append] at hcc
      have hd := checkCanonical_cons_head hcc
      split at hd
      · exact absurd hd (by decide)
      · exact absurd hd (by decide)
    · rintro ⟨hy0, hy⟩
      dsimp only [formatDT, formatYear, pad2]
      rw [if_pos ⟨hy0, hy⟩]
      show checkCanonical
        [Nat.digitChar (f.year.toNat / 1000 % 10), Nat.digitChar (f.year.toNat / 100 % 10),
         Nat.digitChar (f.year.toNat / 10 % 10), Nat.digitChar (f.year.toNat % 10), '-',
         Nat.digitChar (f.month / 10 % 10), Nat.digitChar (f.month % 10), '-',
         Nat.digitChar (f.day / 10 % 10), Nat.digitChar (f.day % 10), ' ',
         Nat.digitChar (f.hour / 10 % 10), Nat.digitChar (f.hour % 10), ':',
         Nat.digitChar (f.minute / 10 % 10), Nat.digitChar (f.minute % 10), ':',
         Nat.digitChar (f.second / 10 % 10), Nat.digitChar (f.second % 10)] = true
      dsimp only [checkCanonical]
      simp [digitChar_mod_isDigit]
  · intro s hws
    have hstart : trimStartS s = [] := by
      dsimp only [trimStartS]
      rw [List.dropWhile_eq_nil_iff]
      intro x hx
      simp [hws x hx]
    dsimp only [parse_email_date, trimS]
    rw [hstart]
    rfl

/-- Witness for C8 (amended) at a concrete successful parse, a concrete
in-range field record, and a concrete whitespace-only input. -/
theorem c8_canonical_output_shape_witness :
    (∃ f : DT, validDT f ∧ ("2009-06-11 14:03:01".data) = formatDT f)
    ∧ checkCanonical (formatDT ⟨2009, 6, 11, 14, 3, 1⟩) = true
    ∧ parse_email_date ("   ".data) = none := by
  refine ⟨?_, ?_, ?_⟩
  · exact c8_canonical_output_shape.1 ("Thu, 11 Jun 09 14:03:01 -0400".data)
      ("2009-06-11 14:03:01".data) (by decide)
  · exact (c8_canonical_output_shape.2.1 ⟨2009, 6, 11, 14, 3, 1⟩).mpr (by decide)
  · exact c8_canonical_output_shape.2.2 ("   ".data) (by decide)

/-- Witness for C9: a concrete three-block batch whose middle block
fails extraction stores the two good rows and warns once. -/
theorem c9_per_message_failures_local_witness :
    processBlocks (fun x => if x == ("bad".data) then none
        else some (ParsedMail.mk [] none [])) false false false {}
      ([("From a\n".data)] ++ ("bad\n".data) :: [("From b\n".data)])
      = bumpWarn (processBlocks (fun x => if x == ("bad".data) then none
        else some (ParsedMail.mk [] none [])) false false false {}
        ([("From a\n".data)] ++ [("From b\n".data)])) :=
  (c9_per_message_failures_local
    (fun x => if x == ("bad".data) then none else some (ParsedMail.mk [] none []))
    false false false [("From a\n".data)] [("From b\n".data)] ("bad\n".data)
    (by decide) {}).1

/-- C1 amended: the date normalization engine is NEVER idempotent on
the canonical form: for every string in the canonical
`YYYY-MM-DD HH:MM:SS` shape (whatever its digits), `parse_email_date`
returns None — the strip-garbage-after-timezone repair takes the
date's second `-` for a timezone sign and truncates the string to
`YYYY-MM-DD H`, after which every stage-B parse attempt fails. -/
theorem c1_canonical_never_reparsed (s : Str) (hc : checkCanonical s = true) :
    parse_email_date s = none := by
  dsimp only [checkCanonical] at hc
  split at hc
  case h_2 => exact absurd hc (by simp)
  case h_1 y1 y2 y3 y4 dd1 m1 m2 dd2 a1 a2 sp h1 h2 cc1 i1 i2 cc2 s1 s2 =>
    simp only [Bool.and_eq_true, beq_iff_eq, and_assoc] at hc
    obtain ⟨d1, d2, d3, d4, rfl, d5, d6, rfl, d7, d8, rfl, d9, d10, rfl, d11, d12,
      rfl, d13, d14⟩ := hc
    have htrim := canonTrim y1 y2 y3 y4 m1 m2 a1 a2 h1 h2 i1 i2 s1 s2 d1 d14
    have hA : stageA [y1, y2, y3, y4, '-', m1, m2, '-', a1, a2, ' ',
        h1, h2, ':', i1, i2, ':', s1, s2]
        = [y1, y2, y3, y4, '-', m1, m2, '-', a1, a2, ' ', h1] := by
      dsimp only [stageA]
      rw [canonDoubleDash y1 y2 y3 y4 m1 m2 a1 a2 h1 h2 i1 i2 s1 s2
            d1 d2 d3 d4 d5 d6 d7 d8 d9 d10 d11 d12 d13 d14,
          canonTzGarbage y1 y2 y3 y4 m1 m2 a1 a2 h1 h2 i1 i2 s1 s2
            d1 d2 d3 d4 d5 d6 d7 d8 d9 d10 d11 d12 d13 d14,
          canonParen y1 y2 y3 y4 m1 m2 a1 a2 h1 d1 d2 d3 d4 d5 d6 d7 d8 d9,
          canonGmt y1 y2 y3 y4 m1 m2 a1 a2 h1 d1 d2 d3 d4 d5 d6 d7 d8 d9,
          canonZones y1 y2 y3 y4 m1 m2 a1 a2 h1 d1 d2 d3 d4 d5 d6 d7 d8 d9,
          canonTz3 y1 y2 y3 y4 m1 m2 a1 a2 h1 d1 d2 d3 d4 d5 d6 d7 d8 d9,
          canonSdt y1 y2 y3 y4 m1 m2 a1 a2 h1 d1 d2 d3 d4 d5 d6 d7 d8 d9,
          canonMs y1 y2 y3 y4 m1 m2 a1 a2 h1 d1 d2 d3 d4 d5 d6 d7 d8 d9,
          canonAmPm y1 y2 y3 y4 m1 m2 a1 a2 h1 d1 d2 d3 d4 d5 d6 d7 d8 d9,
          canonDays y1 y2 y3 y4 m1 m2 a1 a2 h1 d1 d2 d3 d4 d5 d6 d7 d8 d9,
          canonMonths y1 y2 y3 y4 m1 m2 a1 a2 h1 d1 d2 d3 d4 d5 d6 d7 d8 d9]
    dsimp only [parse_email_date]
    rw [htrim]
    rw [if_neg (by simp)]
    rw [hA, canonStageB y1 y2 y3 y4 m1 m2 a1 a2 h1 d1 d2 d3 d4 d5 d6 d7 d8 d9]
    rfl

/-- C1 counterexample: the engine is not idempotent on its own output
`"2009-06-11 14:03:01"` (renormalizing yields None, not
`Some "2009-06-11 14:03:01"`). -/
theorem c1_counterexample :
    parse_email_date ("2009-06-11 14:03:01".data)
      ≠ some ("2009-06-11 14:03:01".data) := by decide

/-- Witness for C1 (amended) at the canonical form of the spec's own
first example output. -/
theorem c1_canonical_never_reparsed_witness :
    parse_email_date ("2009-06-11 14:03:01".data) = none :=
  c1_canonical_never_reparsed ("2009-06-11 14:03:01".data) (by decide)

end Mbox
